import Mathlib

/-!
Shallow embedding of the CSMA/CA discrete-event simulator
(source: the TypeScript simulation engine, `runSimulation` and its types).

Time is modelled in integer ticks.  `Math.random()` is modelled as an
explicit stream `rand : Nat → Nat` of draw numerators: the i-th call to
the generator returns the dyadic rational `rand i / 2 ^ 53` (JavaScript
`Math.random()` yields dyadic rationals of granularity `2 ^ (-53)` in
`[0, 1)`).  The engine threads a consumption index through the state, so
the whole simulation is a pure function of the configuration and the
stream.  The two consumers of randomness are exact under this
representation: `Math.floor(q * m)` is `(v * m) / 2 ^ 53` in natural
division, and `q < packetProb` is numerator comparison at the shared
denominator.
-/

namespace Csma

/-- FSM labels, from the `NodeType` enum of the source. -/
inductive NodeType where
  | IDLE
  | SENSING
  | BACKOFF
  | BACKOFF_PAUSED
  | TX_PREAMBLE
  | TX_FC
  | TX_DATA
  | WAIT_RIFS
  | RX_ACK
  | COLLISION
  | FAILED
deriving DecidableEq, Repr

/-- Packet generation mode (`'RANDOM' | 'INTERVAL'`). -/
inductive PacketGenMode where
  | RANDOM
  | INTERVAL
deriving DecidableEq, Repr

/-- Simulation configuration (`SimConfig`). -/
structure SimConfig where
  slotDurationUs : Nat
  dataSlots : Nat
  ackSlots : Nat
  collisionPenalty : Nat
  pe : Nat
  minBe : Nat
  maxBe : Nat
  maxNb : Nat
  nodeCount : Nat
  packetGenMode : PacketGenMode
  /-- Per-tick generation probability in `RANDOM` mode, scaled: the
  probability is `packetProb / 2 ^ 53`. -/
  packetProb : Nat
  packetInterval : Nat
  simDuration : Nat
deriving DecidableEq, Repr

/-- Per-node mutable state (the `Node` class fields). -/
structure Node where
  id : Nat
  state : NodeType
  packetQueue : List Nat
  vcs : Nat
  nb : Nat
  be : Nat
  backoffCounter : Nat
  txProgress : Nat
  isCurrentTxDoomed : Bool
deriving DecidableEq, Repr

/-- `resetProtocolState()`: resets `nb`, `be`, `vcs`, `backoffCounter`;
does not touch `state`, the queue, `txProgress` or the doomed flag. -/
def Node.resetProtocolState (cfg : SimConfig) (n : Node) : Node :=
  { n with nb := 0, be := cfg.minBe, vcs := 0, backoffCounter := 0 }

/-- `new Node(id, config)`: field initialisers followed by
`resetProtocolState()`. -/
def Node.init (i : Nat) (cfg : SimConfig) : Node :=
  { id := i, state := .IDLE, packetQueue := [], vcs := 0, nb := 0,
    be := cfg.minBe, backoffCounter := 0, txProgress := 0,
    isCurrentTxDoomed := false }

/-- Denominator of the dyadic random draws: a draw numerator `v` stands
for the value `v / randDen` of `Math.random()`. -/
def randDen : Nat := 2 ^ 53

/-- `generateBackoff()`: `max = 2^be - 1`;
`backoffCounter = Math.floor(random * (max + 1)) + pe`.  With the draw
`v / randDen`, the floor is exactly natural division:
`Math.floor((v / randDen) * (max + 1)) = (v * (max + 1)) / randDen`. -/
def generateBackoffValue (cfg : SimConfig) (be : Nat) (v : Nat) : Nat :=
  let mx : Nat := 2 ^ be - 1
  (v * (mx + 1)) / randDen + cfg.pe

/-- Log entry types (`LogEntry['type']`). -/
inductive LogType where
  | INFO
  | COLLISION
  | SUCCESS
  | DROP
  | VCS
deriving DecidableEq, Repr

/-- A log entry. -/
structure LogEntry where
  tick : Nat
  nodeId : Nat
  type : LogType
  message : String
deriving DecidableEq, Repr

/-- Aggregate statistics (`SimStats`). -/
structure SimStats where
  totalPacketsGenerated : Nat
  successCount : Nat
  success1st : Nat
  success2nd : Nat
  success3rd : Nat
  failureCount : Nat
  collisionCount : Nat
  totalLatency : Nat
  maxQueueDepth : Nat
  channelIdleTicks : Nat
  channelTxTicks : Nat
  channelCollisionTicks : Nat
  channelBackoffTicks : Nat
deriving DecidableEq, Repr

/-- The all-zero initial statistics record. -/
def SimStats.init : SimStats :=
  { totalPacketsGenerated := 0, successCount := 0, success1st := 0,
    success2nd := 0, success3rd := 0, failureCount := 0,
    collisionCount := 0, totalLatency := 0, maxQueueDepth := 0,
    channelIdleTicks := 0, channelTxTicks := 0,
    channelCollisionTicks := 0, channelBackoffTicks := 0 }

/-- One visualization cell (`TimelineCell`). -/
structure TimelineCell where
  state : NodeType
  info : Option Nat
  isCollision : Bool
deriving DecidableEq, Repr

/-- The full simulation result (`SimulationResult`); the timeline keyed
by node id becomes a list indexed by position (ids are `0..n-1`). -/
structure SimulationResult where
  timeline : List (List TimelineCell)
  logs : List LogEntry
  stats : SimStats
  duration : Nat
deriving DecidableEq, Repr

/-- Mutable state threaded through the per-tick loop. -/
structure SimState where
  nodes : List Node
  stats : SimStats
  logs : List LogEntry
  timeline : List (List TimelineCell)
  randIdx : Nat
deriving Repr

/-- Transmit sub-states: `[TX_PREAMBLE, TX_FC, TX_DATA, RX_ACK]`. -/
def isTxStateB (s : NodeType) : Bool :=
  s == .TX_PREAMBLE || s == .TX_FC || s == .TX_DATA || s == .RX_ACK

/-- Channel-utilization classification (the stats block of Phase 1):
collision first, then physical-busy-or-RIFS, then backoff, else idle. -/
def channelStatsUpdate (collisionOccurring busyOrRifs backing : Bool)
    (st : SimStats) : SimStats :=
  if collisionOccurring then
    { st with channelCollisionTicks := st.channelCollisionTicks + 1 }
  else if busyOrRifs then
    { st with channelTxTicks := st.channelTxTicks + 1 }
  else if backing then
    { st with channelBackoffTicks := st.channelBackoffTicks + 1 }
  else
    { st with channelIdleTicks := st.channelIdleTicks + 1 }

/-- Collision accounting: for every transmitter not yet doomed, set the
doomed flag, bump `collisionCount` and emit a `COLLISION` log.  The
source iterates the `transmitters` sub-array in node order; iterating
all nodes and skipping non-transmitters is the same traversal. -/
def collisionSweep (t : Nat) :
    List Node → SimStats → List LogEntry → List Node × SimStats × List LogEntry
  | [], st, lg => ([], st, lg)
  | n :: rest, st, lg =>
    if isTxStateB n.state && !n.isCurrentTxDoomed then
      let st2 := { st with collisionCount := st.collisionCount + 1 }
      let lg2 := lg ++ [⟨t, n.id, .COLLISION, "Signal overlap detected"⟩]
      let r := collisionSweep t rest st2 lg2
      ({ n with isCurrentTxDoomed := true } :: r.1, r.2.1, r.2.2)
    else
      let r := collisionSweep t rest st lg
      (n :: r.1, r.2.1, r.2.2)

/-- Phase 2 for a single node (VCS / NAV update).  Transmitters are
skipped entirely; otherwise: hear preamble (max with the penalty, log on
pre-zero NAV), decode FC when no collision (overwrite with
`dataSlots + 1 + 1 + 1`, always log), then decrement when positive. -/
def navNode (cfg : SimConfig) (t : Nat) (preambleActive fcActive collisionOccurring : Bool)
    (n : Node) : Node × List LogEntry :=
  if isTxStateB n.state then (n, [])
  else
    let navPrev := n.vcs
    let v1 := if preambleActive then max n.vcs cfg.collisionPenalty else n.vcs
    let cp := cfg.collisionPenalty
    let lg1 : List LogEntry :=
      if preambleActive && navPrev == 0 then
        [⟨t, n.id, .VCS, s!"Heard Preamble, VCS set to {cp}"⟩]
      else []
    let durationRemaining := cfg.dataSlots + 1 + 1 + 1
    let v2 := if fcActive && !collisionOccurring then durationRemaining else v1
    let lg2 : List LogEntry :=
      if fcActive && !collisionOccurring then
        [⟨t, n.id, .VCS, s!"Decoded FC, NAV set to {durationRemaining}"⟩]
      else []
    let v3 := if v2 > 0 then v2 - 1 else v2
    ({ n with vcs := v3 }, lg1 ++ lg2)

/-- Phase 2 over the node list, logs concatenated in node order. -/
def navPhase (cfg : SimConfig) (t : Nat) (preambleActive fcActive collisionOccurring : Bool) :
    List Node → List Node × List LogEntry
  | [] => ([], [])
  | n :: rest =>
    let r1 := navNode cfg t preambleActive fcActive collisionOccurring n
    let r2 := navPhase cfg t preambleActive fcActive collisionOccurring rest
    (r1.1 :: r2.1, r1.2 ++ r2.2)

/-- Accumulator threaded through Phase 3 (stats, logs, PRNG index). -/
structure FsmAcc where
  stats : SimStats
  logs : List LogEntry
  randIdx : Nat
deriving Repr

/-- Packet arrival (the buffer logic at the top of Phase 3): in
`INTERVAL` mode generate iff `t % packetInterval == 0`; in `RANDOM`
mode consume one draw and generate iff it is `< packetProb`. -/
def genPhase (cfg : SimConfig) (rand : Nat → Nat) (t : Nat)
    (n : Node) (a : FsmAcc) : Node × FsmAcc :=
  let draw : Bool × Nat :=
    match cfg.packetGenMode with
    | .INTERVAL => (t % cfg.packetInterval == 0, a.randIdx)
    | .RANDOM => (decide (rand a.randIdx < cfg.packetProb), a.randIdx + 1)
  if draw.1 then
    let n2 := { n with packetQueue := n.packetQueue ++ [t] }
    let qlen := n2.packetQueue.length
    let st2 := { a.stats with
      totalPacketsGenerated := a.stats.totalPacketsGenerated + 1,
      maxQueueDepth := max a.stats.maxQueueDepth qlen }
    let lg2 := a.logs ++ [⟨t, n.id, .INFO, s!"Packet generated (Queue: {qlen})"⟩]
    (n2, { stats := st2, logs := lg2, randIdx := draw.2 })
  else
    (n, { a with randIdx := draw.2 })

/-- Result of one node's FSM transition: the updated node, updated
accumulator parts, and the raw visualization-cell fields (`cellState`
is the label captured for the cell, `info` the optional backoff
annotation). -/
structure TransOut where
  node : Node
  stats : SimStats
  logs : List LogEntry
  randIdx : Nat
  cellState : NodeType
  info : Option Nat
deriving Repr

/-- `case IDLE`: with a non-empty queue, enter `SENSING` and reset the
protocol state. -/
def stepIdle (cfg : SimConfig) (n : Node) (a : FsmAcc) : TransOut :=
  if n.packetQueue.length > 0 then
    { node := Node.resetProtocolState cfg { n with state := .SENSING },
      stats := a.stats, logs := a.logs, randIdx := a.randIdx,
      cellState := n.state, info := none }
  else
    { node := n, stats := a.stats, logs := a.logs, randIdx := a.randIdx,
      cellState := n.state, info := none }

/-- `case SENSING`: when the channel is idle (physical and virtual),
draw a backoff; a zero draw transmits immediately (enter `TX_PREAMBLE`),
otherwise enter `BACKOFF`. -/
def stepSensing (cfg : SimConfig) (rand : Nat → Nat) (t : Nat)
    (physicalBusy : Bool) (n : Node) (a : FsmAcc) : TransOut :=
  if !physicalBusy && n.vcs == 0 then
    let c := generateBackoffValue cfg n.be (rand a.randIdx)
    let lg := a.logs ++ [⟨t, n.id, .INFO, s!"Start Backoff ({c})"⟩]
    if c == 0 then
      let n2 := { n with state := NodeType.TX_PREAMBLE, backoffCounter := c, txProgress := 0, isCurrentTxDoomed := false }
      { node := n2,
        stats := a.stats, logs := lg, randIdx := a.randIdx + 1,
        cellState := n.state, info := none }
    else
      { node := { n with state := .BACKOFF, backoffCounter := c },
        stats := a.stats, logs := lg, randIdx := a.randIdx + 1,
        cellState := n.state, info := none }
  else
    { node := n, stats := a.stats, logs := a.logs, randIdx := a.randIdx,
      cellState := n.state, info := none }

/-- `case BACKOFF / BACKOFF_PAUSED`: on a free channel resume (the cell
shows `BACKOFF` with the counter), decrement while the counter exceeds
1, transmit when it is 1; on a busy channel pause, freezing the
counter. -/
def stepBackoff (t : Nat) (physicalBusy : Bool)
    (n : Node) (a : FsmAcc) : TransOut :=
  let channelFree := !physicalBusy && n.vcs == 0
  if channelFree then
    if n.backoffCounter > 1 then
      { node := { n with state := .BACKOFF, backoffCounter := n.backoffCounter - 1 },
        stats := a.stats, logs := a.logs, randIdx := a.randIdx,
        cellState := .BACKOFF, info := some n.backoffCounter }
    else
      let n2 := { n with state := NodeType.TX_PREAMBLE, txProgress := 0, isCurrentTxDoomed := false }
      { node := n2,
        stats := a.stats,
        logs := a.logs ++ [⟨t, n.id, .INFO, "Backoff complete, transmitting"⟩],
        randIdx := a.randIdx,
        cellState := .BACKOFF, info := some n.backoffCounter }
  else
    { node := { n with state := .BACKOFF_PAUSED },
      stats := a.stats, logs := a.logs, randIdx := a.randIdx,
      cellState := n.state, info := some n.backoffCounter }

/-- The three in-frame progress steps `TX_PREAMBLE`, `TX_FC`, `TX_DATA`
and the RIFS wait share one shape: advance `txProgress`, move to the
next label when the phase length is reached. -/
def stepProgress (len : Nat) (next : NodeType) (n : Node) (a : FsmAcc) : TransOut :=
  let p := n.txProgress + 1
  if p ≥ len then
    { node := { n with state := next, txProgress := 0 },
      stats := a.stats, logs := a.logs, randIdx := a.randIdx,
      cellState := n.state, info := none }
  else
    { node := { n with txProgress := p },
      stats := a.stats, logs := a.logs, randIdx := a.randIdx,
      cellState := n.state, info := none }

/-- `case RX_ACK`: after `AckP + AckFc = 2` ticks the transaction
resolves: success pops the packet, accounts latency and the success
bucket by `nb`, resets protocol state and returns to `SENSING`/`IDLE`;
a doomed transaction retries with incremented `nb` (dropping the packet
into `FAILED` once `nb` exceeds `maxNb`). -/
def stepRxAck (cfg : SimConfig) (t : Nat) (n : Node) (a : FsmAcc) : TransOut :=
  let p := n.txProgress + 1
  let ackDuration := 1 + 1
  if p ≥ ackDuration then
    if !n.isCurrentTxDoomed then
      let birth? := n.packetQueue.head?
      let q2 := n.packetQueue.tail
      let st1 := { a.stats with successCount := a.stats.successCount + 1 }
      let st2 :=
        match birth? with
        | some b => { st1 with totalLatency := st1.totalLatency + (t - b) }
        | none => st1
      let st3 :=
        if n.nb == 0 then { st2 with success1st := st2.success1st + 1 }
        else if n.nb == 1 then { st2 with success2nd := st2.success2nd + 1 }
        else { st2 with success3rd := st2.success3rd + 1 }
      let n2 := Node.resetProtocolState cfg { n with packetQueue := q2 }
      let lg := a.logs ++ [⟨t, n.id, .SUCCESS, "ACK received, transaction complete"⟩]
      let n3 := { n2 with state := if q2.length > 0 then .SENSING else .IDLE }
      { node := n3, stats := st3, logs := lg, randIdx := a.randIdx,
        cellState := n.state, info := none }
    else
      let nb2 := n.nb + 1
      if nb2 > cfg.maxNb then
        let q2 := n.packetQueue.tail
        let st2 := { a.stats with failureCount := a.stats.failureCount + 1 }
        let n2 := Node.resetProtocolState cfg { n with packetQueue := q2, nb := nb2 }
        let mn := cfg.maxNb
        let lg := a.logs ++
          [⟨t, n.id, .DROP, s!"Max retries ({mn}) reached. Dropping packet."⟩]
        { node := { n2 with state := .FAILED }, stats := st2, logs := lg,
          randIdx := a.randIdx, cellState := n.state, info := none }
      else
        let be2 := min (n.be + 1) cfg.maxBe
        let n2 := { n with nb := nb2, be := be2, vcs := 0, backoffCounter := 0, state := NodeType.SENSING }
        let lg := a.logs ++
          [⟨t, n.id, .COLLISION, s!"No ACK. Retrying (NB={nb2}, BE={be2})"⟩]
        { node := n2, stats := a.stats, logs := lg, randIdx := a.randIdx,
          cellState := n.state, info := none }
  else
    { node := { n with txProgress := p },
      stats := a.stats, logs := a.logs, randIdx := a.randIdx,
      cellState := n.state, info := none }

/-- `case FAILED`: one-tick sink; next tick back to `SENSING` or
`IDLE` by queue emptiness. -/
def stepFailed (n : Node) (a : FsmAcc) : TransOut :=
  if n.packetQueue.length > 0 then
    { node := { n with state := .SENSING }, stats := a.stats, logs := a.logs,
      randIdx := a.randIdx, cellState := n.state, info := none }
  else
    { node := { n with state := .IDLE }, stats := a.stats, logs := a.logs,
      randIdx := a.randIdx, cellState := n.state, info := none }

/-- The `switch (n.state)` dispatch of Phase 3. -/
def transition (cfg : SimConfig) (rand : Nat → Nat) (t : Nat)
    (physicalBusy : Bool) (n : Node) (a : FsmAcc) : TransOut :=
  match n.state with
  | .IDLE => stepIdle cfg n a
  | .SENSING => stepSensing cfg rand t physicalBusy n a
  | .BACKOFF => stepBackoff t physicalBusy n a
  | .BACKOFF_PAUSED => stepBackoff t physicalBusy n a
  | .TX_PREAMBLE => stepProgress 1 .TX_FC n a
  | .TX_FC => stepProgress 1 .TX_DATA n a
  | .TX_DATA => stepProgress cfg.dataSlots .WAIT_RIFS n a
  | .WAIT_RIFS => stepProgress 1 .RX_ACK n a
  | .RX_ACK => stepRxAck cfg t n a
  | .FAILED => stepFailed n a
  | .COLLISION =>
    { node := n, stats := a.stats, logs := a.logs, randIdx := a.randIdx,
      cellState := n.state, info := none }

/-- Result of Phase 3 for one node: updated node, accumulator, and the
timeline cell pushed for this tick. -/
structure FsmOut where
  node : Node
  acc : FsmAcc
  cell : TimelineCell
deriving Repr

/-- Phase 3 for a single node: packet arrival, FSM transition, then the
visualization cell (a transmit-sub-state cell under a collision is
displayed as `COLLISION` with `isCollision` set). -/
def fsmNode (cfg : SimConfig) (rand : Nat → Nat) (t : Nat)
    (physicalBusy collisionOccurring : Bool) (n0 : Node) (a0 : FsmAcc) : FsmOut :=
  let g := genPhase cfg rand t n0 a0
  let tr := transition cfg rand t physicalBusy g.1 g.2
  let isCol := isTxStateB tr.cellState && collisionOccurring
  let vis := if isCol then NodeType.COLLISION else tr.cellState
  { node := tr.node,
    acc := { stats := tr.stats, logs := tr.logs, randIdx := tr.randIdx },
    cell := { state := vis, info := tr.info, isCollision := isCol } }

/-- Phase 3 over the node list (ascending id order), producing the new
nodes, the final accumulator, and one cell per node. -/
def fsmPhase (cfg : SimConfig) (rand : Nat → Nat) (t : Nat)
    (physicalBusy collisionOccurring : Bool) :
    List Node → FsmAcc → List Node × FsmAcc × List TimelineCell
  | [], a => ([], a, [])
  | n :: rest, a =>
    let o := fsmNode cfg rand t physicalBusy collisionOccurring n a
    let r := fsmPhase cfg rand t physicalBusy collisionOccurring rest o.acc
    (o.node :: r.1, r.2.1, o.cell :: r.2.2)

/-- One iteration of the simulation loop (tick `t`). -/
def simTick (cfg : SimConfig) (rand : Nat → Nat) (t : Nat) (s : SimState) : SimState :=
  let transmitters := s.nodes.filter (fun n => isTxStateB n.state)
  let rifsWaiters := s.nodes.filter (fun n => n.state == .WAIT_RIFS)
  let isPreambleActive := transmitters.any (fun n => n.state == .TX_PREAMBLE)
  let isFcActive := transmitters.any (fun n => n.state == .TX_FC)
  let physicalBusy := decide (transmitters.length > 0)
  let collisionOccurring := decide (transmitters.length > 1)
  let backing := s.nodes.any (fun n => n.state == .BACKOFF || n.state == .BACKOFF_PAUSED)
  let st1 := channelStatsUpdate collisionOccurring
    (physicalBusy || decide (rifsWaiters.length > 0)) backing s.stats
  let c :=
    if collisionOccurring then collisionSweep t s.nodes st1 s.logs
    else (s.nodes, st1, s.logs)
  let nv := navPhase cfg t isPreambleActive isFcActive collisionOccurring c.1
  let f := fsmPhase cfg rand t physicalBusy collisionOccurring nv.1
    { stats := c.2.1, logs := c.2.2 ++ nv.2, randIdx := s.randIdx }
  { nodes := f.1,
    stats := f.2.1.stats,
    logs := f.2.1.logs,
    timeline := List.zipWith (fun row cell => row ++ [cell]) s.timeline f.2.2,
    randIdx := f.2.1.randIdx }

/-- Initial simulation state: `nodeCount` freshly constructed nodes,
zero statistics, empty logs and one empty timeline row per node. -/
def initState (cfg : SimConfig) : SimState :=
  let nodes := (List.range cfg.nodeCount).map (fun i => Node.init i cfg)
  { nodes := nodes, stats := SimStats.init, logs := [],
    timeline := nodes.map (fun _ => []), randIdx := 0 }

/-- The simulation state after `t` completed ticks. -/
def stateAt (cfg : SimConfig) (rand : Nat → Nat) : Nat → SimState
  | 0 => initState cfg
  | t + 1 => simTick cfg rand t (stateAt cfg rand t)

/-- `runSimulation(config)`: run the loop for `simDuration` ticks and
package the result. -/
def runSimulation (cfg : SimConfig) (rand : Nat → Nat) : SimulationResult :=
  let s := stateAt cfg rand cfg.simDuration
  { timeline := s.timeline, logs := s.logs, stats := s.stats,
    duration := cfg.simDuration }


/-! ## Statistics bookkeeping lemmas -/

/-- Sum of the four channel-utilization bins. -/
def binsSum (st : SimStats) : Nat :=
  st.channelIdleTicks + st.channelTxTicks + st.channelCollisionTicks + st.channelBackoffTicks

theorem channelStatsUpdate_binsSum (c b k : Bool) (st : SimStats) :
    binsSum (channelStatsUpdate c b k st) = binsSum st + 1 := by
  unfold channelStatsUpdate
  split
  · simp [binsSum]; omega
  · split
    · simp [binsSum]; omega
    · split <;> (simp [binsSum]; omega)

theorem collisionSweep_stats (t : Nat) (l : List Node) (st : SimStats) (lg : List LogEntry) :
    (collisionSweep t l st lg).2.1 =
      { st with collisionCount := (collisionSweep t l st lg).2.1.collisionCount } := by
  induction l generalizing st lg with
  | nil => rfl
  | cons n rest ih =>
    unfold collisionSweep
    split
    · exact ih _ _
    · exact ih _ _

theorem stepIdle_stats (cfg : SimConfig) (n : Node) (a : FsmAcc) :
    (stepIdle cfg n a).stats = a.stats := by
  unfold stepIdle; split <;> rfl

theorem stepSensing_stats (cfg : SimConfig) (rand : Nat → Nat) (t : Nat)
    (b : Bool) (n : Node) (a : FsmAcc) :
    (stepSensing cfg rand t b n a).stats = a.stats := by
  unfold stepSensing
  dsimp only
  split
  · split <;> rfl
  · rfl

theorem stepBackoff_stats (t : Nat) (b : Bool) (n : Node) (a : FsmAcc) :
    (stepBackoff t b n a).stats = a.stats := by
  unfold stepBackoff
  dsimp only
  split
  · split <;> rfl
  · rfl

theorem stepProgress_stats (len : Nat) (nx : NodeType) (n : Node) (a : FsmAcc) :
    (stepProgress len nx n a).stats = a.stats := by
  unfold stepProgress; dsimp only; split <;> rfl

theorem stepFailed_stats (n : Node) (a : FsmAcc) :
    (stepFailed n a).stats = a.stats := by
  unfold stepFailed; split <;> rfl

theorem stepRxAck_bins (cfg : SimConfig) (t : Nat) (n : Node) (a : FsmAcc) :
    binsSum (stepRxAck cfg t n a).stats = binsSum a.stats := by
  unfold stepRxAck
  dsimp only
  repeat' split
  all_goals simp [binsSum]

theorem stepRxAck_succ (cfg : SimConfig) (t : Nat) (n : Node) (a : FsmAcc) :
    (stepRxAck cfg t n a).stats.success1st + (stepRxAck cfg t n a).stats.success2nd
      + (stepRxAck cfg t n a).stats.success3rd + a.stats.successCount
    = a.stats.success1st + a.stats.success2nd + a.stats.success3rd
      + (stepRxAck cfg t n a).stats.successCount := by
  unfold stepRxAck
  dsimp only
  repeat' split
  all_goals simp
  all_goals omega

theorem transition_bins (cfg : SimConfig) (rand : Nat → Nat) (t : Nat)
    (busy : Bool) (n : Node) (a : FsmAcc) :
    binsSum (transition cfg rand t busy n a).stats = binsSum a.stats := by
  unfold transition
  cases n.state <;>
    simp [stepIdle_stats, stepSensing_stats, stepBackoff_stats,
      stepProgress_stats, stepFailed_stats, stepRxAck_bins]

theorem genPhase_bins (cfg : SimConfig) (rand : Nat → Nat) (t : Nat)
    (n : Node) (a : FsmAcc) :
    binsSum (genPhase cfg rand t n a).2.stats = binsSum a.stats := by
  unfold genPhase
  dsimp only
  split <;> simp [binsSum]

theorem fsmNode_bins (cfg : SimConfig) (rand : Nat → Nat) (t : Nat)
    (busy col : Bool) (n : Node) (a : FsmAcc) :
    binsSum (fsmNode cfg rand t busy col n a).acc.stats = binsSum a.stats := by
  unfold fsmNode
  dsimp only
  rw [transition_bins, genPhase_bins]

theorem fsmPhase_bins (cfg : SimConfig) (rand : Nat → Nat) (t : Nat)
    (busy col : Bool) (l : List Node) (a : FsmAcc) :
    binsSum (fsmPhase cfg rand t busy col l a).2.1.stats = binsSum a.stats := by
  induction l generalizing a with
  | nil => rfl
  | cons n rest ih =>
    unfold fsmPhase
    dsimp only
    rw [ih, fsmNode_bins]

theorem collisionSweep_bins (t : Nat) (l : List Node) (st : SimStats) (lg : List LogEntry) :
    binsSum (collisionSweep t l st lg).2.1 = binsSum st := by
  have h := collisionSweep_stats t l st lg
  rw [h]
  simp [binsSum]

/-- The four channel bins agree between two stats records. -/
def binsEq (st st2 : SimStats) : Prop :=
  st2.channelIdleTicks = st.channelIdleTicks
  ∧ st2.channelTxTicks = st.channelTxTicks
  ∧ st2.channelCollisionTicks = st.channelCollisionTicks
  ∧ st2.channelBackoffTicks = st.channelBackoffTicks

theorem binsEq_trans {a b c : SimStats} (h1 : binsEq a b) (h2 : binsEq b c) : binsEq a c := by
  unfold binsEq at h1 h2 ⊢
  omega

theorem stepRxAck_binsEq (cfg : SimConfig) (t : Nat) (n : Node) (a : FsmAcc) :
    binsEq a.stats (stepRxAck cfg t n a).stats := by
  unfold stepRxAck
  dsimp only
  repeat' split
  all_goals simp [binsEq]

theorem transition_binsEq (cfg : SimConfig) (rand : Nat → Nat) (t : Nat)
    (busy : Bool) (n : Node) (a : FsmAcc) :
    binsEq a.stats (transition cfg rand t busy n a).stats := by
  unfold transition
  cases n.state <;>
    first
      | exact stepRxAck_binsEq cfg t n a
      | simp [stepIdle_stats, stepSensing_stats, stepBackoff_stats,
          stepProgress_stats, stepFailed_stats, binsEq]

theorem genPhase_binsEq (cfg : SimConfig) (rand : Nat → Nat) (t : Nat)
    (n : Node) (a : FsmAcc) :
    binsEq a.stats (genPhase cfg rand t n a).2.stats := by
  unfold genPhase
  dsimp only
  split <;> simp [binsEq]

theorem fsmNode_binsEq (cfg : SimConfig) (rand : Nat → Nat) (t : Nat)
    (busy col : Bool) (n : Node) (a : FsmAcc) :
    binsEq a.stats (fsmNode cfg rand t busy col n a).acc.stats := by
  unfold fsmNode
  dsimp only
  exact binsEq_trans (genPhase_binsEq cfg rand t n a) (transition_binsEq cfg rand t busy _ _)

theorem fsmPhase_binsEq (cfg : SimConfig) (rand : Nat → Nat) (t : Nat)
    (busy col : Bool) (l : List Node) (a : FsmAcc) :
    binsEq a.stats (fsmPhase cfg rand t busy col l a).2.1.stats := by
  induction l generalizing a with
  | nil => exact ⟨rfl, rfl, rfl, rfl⟩
  | cons n rest ih =>
    unfold fsmPhase
    dsimp only
    exact binsEq_trans (fsmNode_binsEq cfg rand t busy col n a) (ih _)

theorem collisionSweep_binsEq (t : Nat) (l : List Node) (st : SimStats) (lg : List LogEntry) :
    binsEq st (collisionSweep t l st lg).2.1 := by
  rw [collisionSweep_stats t l st lg]
  simp [binsEq]

/-- Each simulation tick increments the channel bins total by exactly one. -/
theorem simTick_binsSum (cfg : SimConfig) (rand : Nat → Nat) (t : Nat) (s : SimState) :
    binsSum (simTick cfg rand t s).stats = binsSum s.stats + 1 := by
  unfold simTick
  dsimp only
  rw [fsmPhase_bins]
  split
  · rw [collisionSweep_bins, channelStatsUpdate_binsSum]
  · rw [channelStatsUpdate_binsSum]

theorem stateAt_binsSum (cfg : SimConfig) (rand : Nat → Nat) (t : Nat) :
    binsSum (stateAt cfg rand t).stats = t := by
  induction t with
  | zero => rfl
  | succ t ih =>
    unfold stateAt
    rw [simTick_binsSum, ih]

theorem channelStatsUpdate_fields (c b k : Bool) (st : SimStats) :
    (channelStatsUpdate c b k st).channelCollisionTicks
        = st.channelCollisionTicks + (if c then 1 else 0)
    ∧ (channelStatsUpdate c b k st).channelTxTicks
        = st.channelTxTicks + (if !c && b then 1 else 0)
    ∧ (channelStatsUpdate c b k st).channelBackoffTicks
        = st.channelBackoffTicks + (if !c && !b && k then 1 else 0)
    ∧ (channelStatsUpdate c b k st).channelIdleTicks
        = st.channelIdleTicks + (if !c && !b && !k then 1 else 0) := by
  cases c <;> cases b <;> cases k <;> simp [channelStatsUpdate]

theorem simTick_stats_binsEq (cfg : SimConfig) (rand : Nat → Nat) (t : Nat) (s : SimState) :
    binsEq
      (channelStatsUpdate
        (decide ((s.nodes.filter (fun n => isTxStateB n.state)).length > 1))
        (decide ((s.nodes.filter (fun n => isTxStateB n.state)).length > 0)
          || decide ((s.nodes.filter (fun n => n.state == .WAIT_RIFS)).length > 0))
        (s.nodes.any (fun n => n.state == .BACKOFF || n.state == .BACKOFF_PAUSED))
        s.stats)
      (simTick cfg rand t s).stats := by
  unfold simTick
  dsimp only
  refine binsEq_trans ?_ (fsmPhase_binsEq _ _ _ _ _ _ _)
  split
  · exact collisionSweep_binsEq _ _ _ _
  · exact ⟨rfl, rfl, rfl, rfl⟩

/-- C1.  At the end of every run, the four channel-utilization bins sum
to `simDuration`; every tick increments the bins total by exactly one;
and the incremented bin is classified by the priority chain: collision
(more than one transmitter), then physical-busy-or-RIFS, then some node
in `Backoff`/`BackoffPaused`, else idle. -/
theorem channel_bins_partition (cfg : SimConfig) (rand : Nat → Nat) :
    ((runSimulation cfg rand).stats.channelIdleTicks
        + (runSimulation cfg rand).stats.channelTxTicks
        + (runSimulation cfg rand).stats.channelCollisionTicks
        + (runSimulation cfg rand).stats.channelBackoffTicks
      = cfg.simDuration)
    ∧ (∀ t : Nat,
        (stateAt cfg rand (t + 1)).stats.channelIdleTicks
            + (stateAt cfg rand (t + 1)).stats.channelTxTicks
            + (stateAt cfg rand (t + 1)).stats.channelCollisionTicks
            + (stateAt cfg rand (t + 1)).stats.channelBackoffTicks
          = ((stateAt cfg rand t).stats.channelIdleTicks
            + (stateAt cfg rand t).stats.channelTxTicks
            + (stateAt cfg rand t).stats.channelCollisionTicks
            + (stateAt cfg rand t).stats.channelBackoffTicks) + 1)
    ∧ (∀ t : Nat,
        let s := stateAt cfg rand t
        let txCount := (s.nodes.filter (fun n => isTxStateB n.state)).length
        let rifsCount := (s.nodes.filter (fun n => n.state == .WAIT_RIFS)).length
        let collisionB := decide (txCount > 1)
        let busyOrRifsB := decide (txCount > 0) || decide (rifsCount > 0)
        let backingB := s.nodes.any (fun n => n.state == .BACKOFF || n.state == .BACKOFF_PAUSED)
        (stateAt cfg rand (t + 1)).stats.channelCollisionTicks
            = s.stats.channelCollisionTicks + (if collisionB then 1 else 0)
        ∧ (stateAt cfg rand (t + 1)).stats.channelTxTicks
            = s.stats.channelTxTicks + (if !collisionB && busyOrRifsB then 1 else 0)
        ∧ (stateAt cfg rand (t + 1)).stats.channelBackoffTicks
            = s.stats.channelBackoffTicks + (if !collisionB && !busyOrRifsB && backingB then 1 else 0)
        ∧ (stateAt cfg rand (t + 1)).stats.channelIdleTicks
            = s.stats.channelIdleTicks + (if !collisionB && !busyOrRifsB && !backingB then 1 else 0)) := by
  refine ⟨stateAt_binsSum cfg rand cfg.simDuration, ?_, ?_⟩
  · intro t
    have h1 := stateAt_binsSum cfg rand (t + 1)
    have h2 := stateAt_binsSum cfg rand t
    unfold binsSum at h1 h2
    omega
  · intro t
    have hb := simTick_stats_binsEq cfg rand t (stateAt cfg rand t)
    have hf := channelStatsUpdate_fields
      (decide (((stateAt cfg rand t).nodes.filter (fun n => isTxStateB n.state)).length > 1))
      (decide (((stateAt cfg rand t).nodes.filter (fun n => isTxStateB n.state)).length > 0)
        || decide (((stateAt cfg rand t).nodes.filter (fun n => n.state == .WAIT_RIFS)).length > 0))
      ((stateAt cfg rand t).nodes.any (fun n => n.state == .BACKOFF || n.state == .BACKOFF_PAUSED))
      (stateAt cfg rand t).stats
    have hstep : stateAt cfg rand (t + 1) = simTick cfg rand t (stateAt cfg rand t) := rfl
    rw [hstep]
    obtain ⟨b1, b2, b3, b4⟩ := hb
    obtain ⟨f1, f2, f3, f4⟩ := hf
    exact ⟨by rw [b3, f1], by rw [b2, f2], by rw [b4, f3], by rw [b1, f4]⟩

/-- The success buckets and `successCount` advance in lockstep between
two stats records. -/
def succEq (st st2 : SimStats) : Prop :=
  st2.success1st + st2.success2nd + st2.success3rd + st.successCount
    = st.success1st + st.success2nd + st.success3rd + st2.successCount

theorem succEq_trans {a b c : SimStats} (h1 : succEq a b) (h2 : succEq b c) : succEq a c := by
  unfold succEq at h1 h2 ⊢
  omega

theorem stepRxAck_succEq (cfg : SimConfig) (t : Nat) (n : Node) (a : FsmAcc) :
    succEq a.stats (stepRxAck cfg t n a).stats := by
  have h := stepRxAck_succ cfg t n a
  unfold succEq
  omega

theorem transition_succEq (cfg : SimConfig) (rand : Nat → Nat) (t : Nat)
    (busy : Bool) (n : Node) (a : FsmAcc) :
    succEq a.stats (transition cfg rand t busy n a).stats := by
  unfold transition
  cases n.state <;>
    first
      | exact stepRxAck_succEq cfg t n a
      | simp [stepIdle_stats, stepSensing_stats, stepBackoff_stats,
          stepProgress_stats, stepFailed_stats, succEq]

theorem genPhase_succEq (cfg : SimConfig) (rand : Nat → Nat) (t : Nat)
    (n : Node) (a : FsmAcc) :
    succEq a.stats (genPhase cfg rand t n a).2.stats := by
  unfold genPhase
  dsimp only
  split <;> simp [succEq]

theorem fsmNode_succEq (cfg : SimConfig) (rand : Nat → Nat) (t : Nat)
    (busy col : Bool) (n : Node) (a : FsmAcc) :
    succEq a.stats (fsmNode cfg rand t busy col n a).acc.stats := by
  unfold fsmNode
  dsimp only
  exact succEq_trans (genPhase_succEq cfg rand t n a) (transition_succEq cfg rand t busy _ _)

theorem fsmPhase_succEq (cfg : SimConfig) (rand : Nat → Nat) (t : Nat)
    (busy col : Bool) (l : List Node) (a : FsmAcc) :
    succEq a.stats (fsmPhase cfg rand t busy col l a).2.1.stats := by
  induction l generalizing a with
  | nil => rfl
  | cons n rest ih =>
    unfold fsmPhase
    dsimp only
    exact succEq_trans (fsmNode_succEq cfg rand t busy col n a) (ih _)

theorem channelStatsUpdate_succEq (c b k : Bool) (st : SimStats) :
    succEq st (channelStatsUpdate c b k st) := by
  unfold channelStatsUpdate
  split
  · simp [succEq]
  · split
    · simp [succEq]
    · split <;> simp [succEq]

theorem collisionSweep_succEq (t : Nat) (l : List Node) (st : SimStats) (lg : List LogEntry) :
    succEq st (collisionSweep t l st lg).2.1 := by
  rw [collisionSweep_stats]
  simp [succEq]

theorem simTick_succEq (cfg : SimConfig) (rand : Nat → Nat) (t : Nat) (s : SimState) :
    succEq s.stats (simTick cfg rand t s).stats := by
  unfold simTick
  dsimp only
  refine succEq_trans ?_ (fsmPhase_succEq _ _ _ _ _ _ _)
  split
  · exact succEq_trans (channelStatsUpdate_succEq _ _ _ _)
      (collisionSweep_succEq t s.nodes _ s.logs)
  · exact channelStatsUpdate_succEq _ _ _ _

theorem stateAt_succSum (cfg : SimConfig) (rand : Nat → Nat) (t : Nat) :
    (stateAt cfg rand t).stats.success1st + (stateAt cfg rand t).stats.success2nd
        + (stateAt cfg rand t).stats.success3rd
      = (stateAt cfg rand t).stats.successCount := by
  induction t with
  | zero => rfl
  | succ t ih =>
    have h : succEq (stateAt cfg rand t).stats (stateAt cfg rand (t + 1)).stats :=
      simTick_succEq cfg rand t (stateAt cfg rand t)
    unfold succEq at h
    omega

/-- C6.  At the end of every run,
`success1st + success2nd + success3rd = successCount`: each success
increments `successCount` and exactly one bucket, chosen by the retry
count `nb` at completion. -/
theorem success_bucket_partition (cfg : SimConfig) (rand : Nat → Nat) :
    (runSimulation cfg rand).stats.success1st
        + (runSimulation cfg rand).stats.success2nd
        + (runSimulation cfg rand).stats.success3rd
      = (runSimulation cfg rand).stats.successCount :=
  stateAt_succSum cfg rand cfg.simDuration

/-! ## General single-node first-packet latency (C4) -/

/-- The single node of a one-node `Interval` run mid-transaction:
state `st`, frame progress `p`, backoff counter `k`, one queued packet
born at tick 0. -/
def snNode (cfg : SimConfig) (st : NodeType) (p k : Nat) : Node :=
  { id := 0, state := st, packetQueue := [0], vcs := 0, nb := 0,
    be := cfg.minBe, backoffCounter := k, txProgress := p,
    isCurrentTxDoomed := false }

/-- The single node right after its first success: idle, empty queue. -/
def snDone (cfg : SimConfig) : Node :=
  { id := 0, state := .IDLE, packetQueue := [], vcs := 0, nb := 0,
    be := cfg.minBe, backoffCounter := 0, txProgress := 1,
    isCurrentTxDoomed := false }

theorem snStep_zero (cfg : SimConfig) (rand : Nat → Nat)
    (h1 : cfg.nodeCount = 1) (h2 : cfg.packetGenMode = .INTERVAL) :
    (stateAt cfg rand 1).nodes = [snNode cfg .SENSING 0 0]
    ∧ (stateAt cfg rand 1).stats.totalLatency = 0
    ∧ (stateAt cfg rand 1).stats.successCount = 0
    ∧ (stateAt cfg rand 1).stats.success1st = 0
    ∧ (stateAt cfg rand 1).randIdx = 0 := by
  have hs : stateAt cfg rand 1 = simTick cfg rand 0 (initState cfg) := rfl
  rw [hs]
  unfold simTick initState
  rw [h1]
  refine ⟨?_, ?_, ?_, ?_, ?_⟩ <;>
    simp [channelStatsUpdate, navPhase, navNode, fsmPhase, fsmNode, genPhase,
      transition, stepIdle, Node.resetProtocolState, Node.init, SimStats.init,
      isTxStateB, snNode, List.range_succ, h2]

theorem snStep_sensing0 (cfg : SimConfig) (rand : Nat → Nat) (t : Nat) (s : SimState)
    (h2 : cfg.packetGenMode = .INTERVAL)
    (hmod : ¬ t % cfg.packetInterval = 0)
    (hn : s.nodes = [snNode cfg .SENSING 0 0])
    (hdraw : generateBackoffValue cfg cfg.minBe (rand s.randIdx) = 0) :
    (simTick cfg rand t s).nodes = [snNode cfg .TX_PREAMBLE 0 0]
    ∧ (simTick cfg rand t s).stats.totalLatency = s.stats.totalLatency
    ∧ (simTick cfg rand t s).stats.successCount = s.stats.successCount
    ∧ (simTick cfg rand t s).stats.success1st = s.stats.success1st
    ∧ (simTick cfg rand t s).randIdx = s.randIdx + 1 := by
  unfold simTick
  rw [hn]
  refine ⟨?_, ?_, ?_, ?_, ?_⟩ <;>
    simp [channelStatsUpdate, navPhase, navNode, fsmPhase, fsmNode, genPhase,
      transition, stepSensing, isTxStateB, snNode, h2, hmod, hdraw]

theorem snStep_sensing1 (cfg : SimConfig) (rand : Nat → Nat) (t : Nat) (s : SimState)
    (cdraw : Nat)
    (h2 : cfg.packetGenMode = .INTERVAL)
    (hmod : ¬ t % cfg.packetInterval = 0)
    (hn : s.nodes = [snNode cfg .SENSING 0 0])
    (hdraw : generateBackoffValue cfg cfg.minBe (rand s.randIdx) = cdraw)
    (hpos : cdraw ≠ 0) :
    (simTick cfg rand t s).nodes = [snNode cfg .BACKOFF 0 cdraw]
    ∧ (simTick cfg rand t s).stats.totalLatency = s.stats.totalLatency
    ∧ (simTick cfg rand t s).stats.successCount = s.stats.successCount
    ∧ (simTick cfg rand t s).stats.success1st = s.stats.success1st
    ∧ (simTick cfg rand t s).randIdx = s.randIdx + 1 := by
  unfold simTick
  rw [hn]
  refine ⟨?_, ?_, ?_, ?_, ?_⟩ <;>
    simp [channelStatsUpdate, navPhase, navNode, fsmPhase, fsmNode, genPhase,
      transition, stepSensing, isTxStateB, snNode, h2, hmod, hdraw, hpos]

theorem snStep_backoff (cfg : SimConfig) (rand : Nat → Nat) (t : Nat) (s : SimState)
    (k : Nat)
    (h2 : cfg.packetGenMode = .INTERVAL)
    (hmod : ¬ t % cfg.packetInterval = 0)
    (hn : s.nodes = [snNode cfg .BACKOFF 0 k])
    (hk : 1 < k) :
    (simTick cfg rand t s).nodes = [snNode cfg .BACKOFF 0 (k - 1)]
    ∧ (simTick cfg rand t s).stats.totalLatency = s.stats.totalLatency
    ∧ (simTick cfg rand t s).stats.successCount = s.stats.successCount
    ∧ (simTick cfg rand t s).stats.success1st = s.stats.success1st
    ∧ (simTick cfg rand t s).randIdx = s.randIdx := by
  unfold simTick
  rw [hn]
  refine ⟨?_, ?_, ?_, ?_, ?_⟩ <;>
    simp [channelStatsUpdate, navPhase, navNode, fsmPhase, fsmNode, genPhase,
      transition, stepBackoff, isTxStateB, snNode, h2, hmod, hk]

theorem snStep_backoff1 (cfg : SimConfig) (rand : Nat → Nat) (t : Nat) (s : SimState)
    (k : Nat)
    (h2 : cfg.packetGenMode = .INTERVAL)
    (hmod : ¬ t % cfg.packetInterval = 0)
    (hn : s.nodes = [snNode cfg .BACKOFF 0 k])
    (hk : ¬ 1 < k) :
    (simTick cfg rand t s).nodes = [snNode cfg .TX_PREAMBLE 0 k]
    ∧ (simTick cfg rand t s).stats.totalLatency = s.stats.totalLatency
    ∧ (simTick cfg rand t s).stats.successCount = s.stats.successCount
    ∧ (simTick cfg rand t s).stats.success1st = s.stats.success1st
    ∧ (simTick cfg rand t s).randIdx = s.randIdx := by
  unfold simTick
  rw [hn]
  refine ⟨?_, ?_, ?_, ?_, ?_⟩ <;>
    simp [channelStatsUpdate, navPhase, navNode, fsmPhase, fsmNode, genPhase,
      transition, stepBackoff, isTxStateB, snNode, h2, hmod, hk]

theorem snStep_preamble (cfg : SimConfig) (rand : Nat → Nat) (t : Nat) (s : SimState) (k : Nat)
    (h2 : cfg.packetGenMode = .INTERVAL)
    (hmod : ¬ t % cfg.packetInterval = 0)
    (hn : s.nodes = [snNode cfg .TX_PREAMBLE 0 k]) :
    (simTick cfg rand t s).nodes = [snNode cfg .TX_FC 0 k]
    ∧ (simTick cfg rand t s).stats.totalLatency = s.stats.totalLatency
    ∧ (simTick cfg rand t s).stats.successCount = s.stats.successCount
    ∧ (simTick cfg rand t s).stats.success1st = s.stats.success1st
    ∧ (simTick cfg rand t s).randIdx = s.randIdx := by
  unfold simTick
  rw [hn]
  refine ⟨?_, ?_, ?_, ?_, ?_⟩ <;>
    simp [channelStatsUpdate, navPhase, navNode, fsmPhase, fsmNode, genPhase,
      transition, stepProgress, isTxStateB, snNode, h2, hmod]

theorem snStep_fc (cfg : SimConfig) (rand : Nat → Nat) (t : Nat) (s : SimState) (k : Nat)
    (h2 : cfg.packetGenMode = .INTERVAL)
    (hmod : ¬ t % cfg.packetInterval = 0)
    (hn : s.nodes = [snNode cfg .TX_FC 0 k]) :
    (simTick cfg rand t s).nodes = [snNode cfg .TX_DATA 0 k]
    ∧ (simTick cfg rand t s).stats.totalLatency = s.stats.totalLatency
    ∧ (simTick cfg rand t s).stats.successCount = s.stats.successCount
    ∧ (simTick cfg rand t s).stats.success1st = s.stats.success1st
    ∧ (simTick cfg rand t s).randIdx = s.randIdx := by
  unfold simTick
  rw [hn]
  refine ⟨?_, ?_, ?_, ?_, ?_⟩ <;>
    simp [channelStatsUpdate, navPhase, navNode, fsmPhase, fsmNode, genPhase,
      transition, stepProgress, isTxStateB, snNode, h2, hmod]

theorem snStep_data (cfg : SimConfig) (rand : Nat → Nat) (t : Nat) (s : SimState) (p k : Nat)
    (h2 : cfg.packetGenMode = .INTERVAL)
    (hmod : ¬ t % cfg.packetInterval = 0)
    (hn : s.nodes = [snNode cfg .TX_DATA p k])
    (hp : p + 1 < cfg.dataSlots) :
    (simTick cfg rand t s).nodes = [snNode cfg .TX_DATA (p + 1) k]
    ∧ (simTick cfg rand t s).stats.totalLatency = s.stats.totalLatency
    ∧ (simTick cfg rand t s).stats.successCount = s.stats.successCount
    ∧ (simTick cfg rand t s).stats.success1st = s.stats.success1st
    ∧ (simTick cfg rand t s).randIdx = s.randIdx := by
  unfold simTick
  rw [hn]
  have hp2 : ¬ p + 1 ≥ cfg.dataSlots := by omega
  refine ⟨?_, ?_, ?_, ?_, ?_⟩ <;>
    simp [channelStatsUpdate, navPhase, navNode, fsmPhase, fsmNode, genPhase,
      transition, stepProgress, isTxStateB, snNode, h2, hmod, hp2]

theorem snStep_dataLast (cfg : SimConfig) (rand : Nat → Nat) (t : Nat) (s : SimState) (p k : Nat)
    (h2 : cfg.packetGenMode = .INTERVAL)
    (hmod : ¬ t % cfg.packetInterval = 0)
    (hn : s.nodes = [snNode cfg .TX_DATA p k])
    (hp : p + 1 ≥ cfg.dataSlots) :
    (simTick cfg rand t s).nodes = [snNode cfg .WAIT_RIFS 0 k]
    ∧ (simTick cfg rand t s).stats.totalLatency = s.stats.totalLatency
    ∧ (simTick cfg rand t s).stats.successCount = s.stats.successCount
    ∧ (simTick cfg rand t s).stats.success1st = s.stats.success1st
    ∧ (simTick cfg rand t s).randIdx = s.randIdx := by
  unfold simTick
  rw [hn]
  refine ⟨?_, ?_, ?_, ?_, ?_⟩ <;>
    simp [channelStatsUpdate, navPhase, navNode, fsmPhase, fsmNode, genPhase,
      transition, stepProgress, isTxStateB, snNode, h2, hmod, hp]

theorem snStep_rifs (cfg : SimConfig) (rand : Nat → Nat) (t : Nat) (s : SimState) (k : Nat)
    (h2 : cfg.packetGenMode = .INTERVAL)
    (hmod : ¬ t % cfg.packetInterval = 0)
    (hn : s.nodes = [snNode cfg .WAIT_RIFS 0 k]) :
    (simTick cfg rand t s).nodes = [snNode cfg .RX_ACK 0 k]
    ∧ (simTick cfg rand t s).stats.totalLatency = s.stats.totalLatency
    ∧ (simTick cfg rand t s).stats.successCount = s.stats.successCount
    ∧ (simTick cfg rand t s).stats.success1st = s.stats.success1st
    ∧ (simTick cfg rand t s).randIdx = s.randIdx := by
  unfold simTick
  rw [hn]
  refine ⟨?_, ?_, ?_, ?_, ?_⟩ <;>
    simp [channelStatsUpdate, navPhase, navNode, fsmPhase, fsmNode, genPhase,
      transition, stepProgress, isTxStateB, snNode, h2, hmod]

theorem snStep_ack0 (cfg : SimConfig) (rand : Nat → Nat) (t : Nat) (s : SimState) (k : Nat)
    (h2 : cfg.packetGenMode = .INTERVAL)
    (hmod : ¬ t % cfg.packetInterval = 0)
    (hn : s.nodes = [snNode cfg .RX_ACK 0 k]) :
    (simTick cfg rand t s).nodes = [snNode cfg .RX_ACK 1 k]
    ∧ (simTick cfg rand t s).stats.totalLatency = s.stats.totalLatency
    ∧ (simTick cfg rand t s).stats.successCount = s.stats.successCount
    ∧ (simTick cfg rand t s).stats.success1st = s.stats.success1st
    ∧ (simTick cfg rand t s).randIdx = s.randIdx := by
  unfold simTick
  rw [hn]
  refine ⟨?_, ?_, ?_, ?_, ?_⟩ <;>
    simp [channelStatsUpdate, navPhase, navNode, fsmPhase, fsmNode, genPhase,
      transition, stepRxAck, isTxStateB, snNode, h2, hmod]

theorem snStep_ackDone (cfg : SimConfig) (rand : Nat → Nat) (t : Nat) (s : SimState) (k : Nat)
    (h2 : cfg.packetGenMode = .INTERVAL)
    (hmod : ¬ t % cfg.packetInterval = 0)
    (hn : s.nodes = [snNode cfg .RX_ACK 1 k]) :
    (simTick cfg rand t s).nodes = [snDone cfg]
    ∧ (simTick cfg rand t s).stats.totalLatency = s.stats.totalLatency + t
    ∧ (simTick cfg rand t s).stats.successCount = s.stats.successCount + 1
    ∧ (simTick cfg rand t s).stats.success1st = s.stats.success1st + 1
    ∧ (simTick cfg rand t s).randIdx = s.randIdx := by
  unfold simTick
  rw [hn]
  refine ⟨?_, ?_, ?_, ?_, ?_⟩ <;>
    simp [channelStatsUpdate, navPhase, navNode, fsmPhase, fsmNode, genPhase,
      transition, stepRxAck, Node.resetProtocolState, isTxStateB, snNode, snDone,
      h2, hmod]

/-- Composed single-node run: with one node in `Interval` mode, drawn
counter `c` (= pe + uniform part), and a horizon of exactly
`c + dataSlots + 7` ticks inside one arrival period, the first packet
completes with latency `c + dataSlots + 6` on the first attempt. -/
theorem snRun (cfg : SimConfig) (rand : Nat → Nat)
    (h1 : cfg.nodeCount = 1) (h2 : cfg.packetGenMode = .INTERVAL)
    (hds : 1 ≤ cfg.dataSlots)
    (c : Nat) (hc : generateBackoffValue cfg cfg.minBe (rand 0) = c)
    (hI : c + cfg.dataSlots + 7 ≤ cfg.packetInterval) :
    (stateAt cfg rand (c + cfg.dataSlots + 7)).stats.totalLatency
        = c + cfg.dataSlots + 6
    ∧ (stateAt cfg rand (c + cfg.dataSlots + 7)).stats.successCount = 1
    ∧ (stateAt cfg rand (c + cfg.dataSlots + 7)).stats.success1st = 1 := by
  have hmod : ∀ t : Nat, 1 ≤ t → t ≤ c + cfg.dataSlots + 6 →
      ¬ t % cfg.packetInterval = 0 := by
    intro t ht1 ht2
    have hlt : t < cfg.packetInterval := by omega
    rw [Nat.mod_eq_of_lt hlt]
    omega
  obtain ⟨e1, e2, e3, e4, e5⟩ := snStep_zero cfg rand h1 h2
  have hPre : (stateAt cfg rand (c + 2)).nodes
        = [snNode cfg .TX_PREAMBLE 0 (min c 1)]
      ∧ (stateAt cfg rand (c + 2)).stats.totalLatency = 0
      ∧ (stateAt cfg rand (c + 2)).stats.successCount = 0
      ∧ (stateAt cfg rand (c + 2)).stats.success1st = 0 := by
    by_cases hc0 : c = 0
    · subst hc0
      have hstep : stateAt cfg rand 2 = simTick cfg rand 1 (stateAt cfg rand 1) := rfl
      have hdraw : generateBackoffValue cfg cfg.minBe (rand (stateAt cfg rand 1).randIdx) = 0 := by
        rw [e5]; exact hc
      obtain ⟨g1, g2, g3, g4, g5⟩ := snStep_sensing0 cfg rand 1 (stateAt cfg rand 1)
        h2 (hmod 1 (by omega) (by omega)) e1 hdraw
      exact ⟨by rw [hstep, g1]; simp, by rw [hstep, g2, e2],
        by rw [hstep, g3, e3], by rw [hstep, g4, e4]⟩
    · have hstep2 : stateAt cfg rand 2 = simTick cfg rand 1 (stateAt cfg rand 1) := rfl
      have hdraw : generateBackoffValue cfg cfg.minBe (rand (stateAt cfg rand 1).randIdx) = c := by
        rw [e5]; exact hc
      obtain ⟨g1, g2, g3, g4, g5⟩ := snStep_sensing1 cfg rand 1 (stateAt cfg rand 1)
        c h2 (hmod 1 (by omega) (by omega)) e1 hdraw hc0
      have hcount : ∀ j : Nat, j + 1 ≤ c →
          (stateAt cfg rand (2 + j)).nodes = [snNode cfg .BACKOFF 0 (c - j)]
          ∧ (stateAt cfg rand (2 + j)).stats.totalLatency = 0
          ∧ (stateAt cfg rand (2 + j)).stats.successCount = 0
          ∧ (stateAt cfg rand (2 + j)).stats.success1st = 0 := by
        intro j
        induction j with
        | zero =>
          intro _
          refine ⟨?_, ?_, ?_, ?_⟩
          · rw [show (2 : Nat) + 0 = 2 from rfl, hstep2, g1]
            simp
          · rw [show (2 : Nat) + 0 = 2 from rfl, hstep2, g2, e2]
          · rw [show (2 : Nat) + 0 = 2 from rfl, hstep2, g3, e3]
          · rw [show (2 : Nat) + 0 = 2 from rfl, hstep2, g4, e4]
        | succ j ih =>
          intro hj
          obtain ⟨f1, f2, f3, f4⟩ := ih (by omega)
          have hstep : stateAt cfg rand (2 + (j + 1))
              = simTick cfg rand (2 + j) (stateAt cfg rand (2 + j)) := rfl
          have hk : 1 < c - j := by omega
          obtain ⟨q1, q2, q3, q4, q5⟩ := snStep_backoff cfg rand (2 + j)
            (stateAt cfg rand (2 + j)) (c - j) h2
            (hmod (2 + j) (by omega) (by omega)) f1 hk
          refine ⟨?_, ?_, ?_, ?_⟩
          · rw [hstep, q1, show c - j - 1 = c - (j + 1) from by omega]
          · rw [hstep, q2, f2]
          · rw [hstep, q3, f3]
          · rw [hstep, q4, f4]
      obtain ⟨k1, k2, k3, k4⟩ := hcount (c - 1) (by omega)
      rw [show (2 : Nat) + (c - 1) = c + 1 from by omega] at k1 k2 k3 k4
      rw [show c - (c - 1) = 1 from by omega] at k1
      have hstep : stateAt cfg rand (c + 2)
          = simTick cfg rand (c + 1) (stateAt cfg rand (c + 1)) := rfl
      obtain ⟨q1, q2, q3, q4, q5⟩ := snStep_backoff1 cfg rand (c + 1)
        (stateAt cfg rand (c + 1)) 1 h2
        (hmod (c + 1) (by omega) (by omega)) k1 (by omega)
      refine ⟨?_, ?_, ?_, ?_⟩
      · rw [hstep, q1, show min c 1 = 1 from by omega]
      · rw [hstep, q2, k2]
      · rw [hstep, q3, k3]
      · rw [hstep, q4, k4]
  obtain ⟨p1, p2, p3, p4⟩ := hPre
  have hstepP : stateAt cfg rand (c + 3)
      = simTick cfg rand (c + 2) (stateAt cfg rand (c + 2)) := rfl
  obtain ⟨q1, q2, q3, q4, q5⟩ := snStep_preamble cfg rand (c + 2)
    (stateAt cfg rand (c + 2)) (min c 1) h2 (hmod (c + 2) (by omega) (by omega)) p1
  have hstepF : stateAt cfg rand (c + 4)
      = simTick cfg rand (c + 3) (stateAt cfg rand (c + 3)) := rfl
  obtain ⟨r1, r2, r3, r4, r5⟩ := snStep_fc cfg rand (c + 3)
    (stateAt cfg rand (c + 3)) (min c 1) h2 (hmod (c + 3) (by omega) (by omega))
    (by rw [hstepP, q1])
  have hdata : ∀ p : Nat, p ≤ cfg.dataSlots - 1 →
      (stateAt cfg rand (c + 4 + p)).nodes = [snNode cfg .TX_DATA p (min c 1)]
      ∧ (stateAt cfg rand (c + 4 + p)).stats.totalLatency = 0
      ∧ (stateAt cfg rand (c + 4 + p)).stats.successCount = 0
      ∧ (stateAt cfg rand (c + 4 + p)).stats.success1st = 0 := by
    intro p
    induction p with
    | zero =>
      intro _
      refine ⟨?_, ?_, ?_, ?_⟩
      · rw [show c + 4 + 0 = c + 4 from rfl, hstepF, r1]
      · rw [show c + 4 + 0 = c + 4 from rfl, hstepF, r2, hstepP, q2, p2]
      · rw [show c + 4 + 0 = c + 4 from rfl, hstepF, r3, hstepP, q3, p3]
      · rw [show c + 4 + 0 = c + 4 from rfl, hstepF, r4, hstepP, q4, p4]
    | succ p ih =>
      intro hp
      obtain ⟨f1, f2, f3, f4⟩ := ih (by omega)
      have hstep : stateAt cfg rand (c + 4 + (p + 1))
          = simTick cfg rand (c + 4 + p) (stateAt cfg rand (c + 4 + p)) := rfl
      obtain ⟨w1, w2, w3, w4, w5⟩ := snStep_data cfg rand (c + 4 + p)
        (stateAt cfg rand (c + 4 + p)) p (min c 1) h2
        (hmod (c + 4 + p) (by omega) (by omega)) f1 (by omega)
      exact ⟨by rw [hstep, w1], by rw [hstep, w2, f2],
        by rw [hstep, w3, f3], by rw [hstep, w4, f4]⟩
  obtain ⟨d1, d2, d3, d4⟩ := hdata (cfg.dataSlots - 1) (by omega)
  rw [show c + 4 + (cfg.dataSlots - 1) = c + cfg.dataSlots + 3 from by omega]
    at d1 d2 d3 d4
  have hstepD : stateAt cfg rand (c + cfg.dataSlots + 4)
      = simTick cfg rand (c + cfg.dataSlots + 3)
          (stateAt cfg rand (c + cfg.dataSlots + 3)) := rfl
  obtain ⟨w1, w2, w3, w4, w5⟩ := snStep_dataLast cfg rand (c + cfg.dataSlots + 3)
    (stateAt cfg rand (c + cfg.dataSlots + 3)) (cfg.dataSlots - 1) (min c 1) h2
    (hmod (c + cfg.dataSlots + 3) (by omega) (by omega)) d1 (by omega)
  have hstepR : stateAt cfg rand (c + cfg.dataSlots + 5)
      = simTick cfg rand (c + cfg.dataSlots + 4)
          (stateAt cfg rand (c + cfg.dataSlots + 4)) := rfl
  obtain ⟨x1, x2, x3, x4, x5⟩ := snStep_rifs cfg rand (c + cfg.dataSlots + 4)
    (stateAt cfg rand (c + cfg.dataSlots + 4)) (min c 1) h2
    (hmod (c + cfg.dataSlots + 4) (by omega) (by omega)) (by rw [hstepD, w1])
  have hstepA : stateAt cfg rand (c + cfg.dataSlots + 6)
      = simTick cfg rand (c + cfg.dataSlots + 5)
          (stateAt cfg rand (c + cfg.dataSlots + 5)) := rfl
  obtain ⟨y1, y2, y3, y4, y5⟩ := snStep_ack0 cfg rand (c + cfg.dataSlots + 5)
    (stateAt cfg rand (c + cfg.dataSlots + 5)) (min c 1) h2
    (hmod (c + cfg.dataSlots + 5) (by omega) (by omega)) (by rw [hstepR, x1])
  have hstepZ : stateAt cfg rand (c + cfg.dataSlots + 7)
      = simTick cfg rand (c + cfg.dataSlots + 6)
          (stateAt cfg rand (c + cfg.dataSlots + 6)) := rfl
  obtain ⟨z1, z2, z3, z4, z5⟩ := snStep_ackDone cfg rand (c + cfg.dataSlots + 6)
    (stateAt cfg rand (c + cfg.dataSlots + 6)) (min c 1) h2
    (hmod (c + cfg.dataSlots + 6) (by omega) (by omega)) (by rw [hstepA, y1])
  refine ⟨?_, ?_, ?_⟩
  · rw [hstepZ, z2, hstepA, y2, hstepR, x2, hstepD, w2, d2]
    omega
  · rw [hstepZ, z3, hstepA, y3, hstepR, x3, hstepD, w3, d3]
  · rw [hstepZ, z4, hstepA, y4, hstepR, x4, hstepD, w4, d4]

/-! ## Concrete scenarios -/

/-- The all-zero draw stream (every `Math.random()` call returns 0). -/
def randZero : Nat → Nat := fun _ => 0

/-- Scenario "trivial idle": `nodeCount=1, simDuration=10, Interval,
packetInterval=100, dataSlots=10, pe=2, minBe=maxBe=0`. -/
def cfgTrivialIdle : SimConfig :=
  { slotDurationUs := 10, dataSlots := 10, ackSlots := 2, collisionPenalty := 40,
    pe := 2, minBe := 0, maxBe := 0, maxNb := 4, nodeCount := 1,
    packetGenMode := .INTERVAL, packetProb := 0, packetInterval := 100,
    simDuration := 10 }

/-- C3 counterexample.  In the "trivial idle" scenario the code does
generate a packet at `t = 0` (because `0 % packetInterval == 0`), so
`totalPacketsGenerated` is not 0 and `channelIdleTicks` is not 10. -/
theorem trivial_idle_claim_false :
    ¬((runSimulation cfgTrivialIdle randZero).stats.totalPacketsGenerated = 0
      ∧ (runSimulation cfgTrivialIdle randZero).stats.channelIdleTicks = 10) := by
  decide

/-- C3 amended.  In the "trivial idle" scenario one packet is generated
(at `t = 0`); the node senses at `t = 1`, backs off 2 ticks (`pe = 2`),
and is still transmitting when the run ends, so the bins are
idle 2 / backoff 2 / tx 6 / collision 0, there are no successes or
failures, and the single timeline row is
Idle, Sensing, Backoff, Backoff, P, FC, D, D, D, D. -/
theorem trivial_idle_run :
    (runSimulation cfgTrivialIdle randZero).stats.totalPacketsGenerated = 1
    ∧ (runSimulation cfgTrivialIdle randZero).stats.channelIdleTicks = 2
    ∧ (runSimulation cfgTrivialIdle randZero).stats.channelBackoffTicks = 2
    ∧ (runSimulation cfgTrivialIdle randZero).stats.channelTxTicks = 6
    ∧ (runSimulation cfgTrivialIdle randZero).stats.channelCollisionTicks = 0
    ∧ (runSimulation cfgTrivialIdle randZero).stats.successCount = 0
    ∧ (runSimulation cfgTrivialIdle randZero).stats.failureCount = 0
    ∧ ((runSimulation cfgTrivialIdle randZero).timeline.map
        (fun row => row.map (fun cell => cell.state)))
      = [[.IDLE, .SENSING, .BACKOFF, .BACKOFF, .TX_PREAMBLE, .TX_FC,
          .TX_DATA, .TX_DATA, .TX_DATA, .TX_DATA]] := by
  decide

/-- Scenario "single node single packet": `nodeCount=1, simDuration=50,
Interval, packetInterval=100, dataSlots=10, pe=0, minBe=maxBe=0,
collisionPenalty=40, maxNb=4`. -/
def cfgSinglePacket : SimConfig :=
  { slotDurationUs := 10, dataSlots := 10, ackSlots := 2, collisionPenalty := 40,
    pe := 0, minBe := 0, maxBe := 0, maxNb := 4, nodeCount := 1,
    packetGenMode := .INTERVAL, packetProb := 0, packetInterval := 100,
    simDuration := 50 }

set_option maxRecDepth 4000 in
/-- C4 counterexample.  In the single-packet scenario the recorded
latency is not 15 and the frame does not start at tick 1 (tick 1 is the
`Sensing` tick; the preamble airs at tick 2). -/
theorem single_packet_claim_false :
    ¬((runSimulation cfgSinglePacket randZero).stats.totalLatency = 15
      ∧ (((runSimulation cfgSinglePacket randZero).timeline.headD []).map
          (fun cell => cell.state)).take 2 = [.IDLE, .TX_PREAMBLE]) := by
  decide

set_option maxRecDepth 4000 in
/-- Concrete half of the C4 scenario, evaluated by the kernel. -/
theorem single_packet_run_concrete :
    (runSimulation cfgSinglePacket randZero).stats.success1st = 1
    ∧ (runSimulation cfgSinglePacket randZero).stats.successCount = 1
    ∧ (runSimulation cfgSinglePacket randZero).stats.totalLatency = 16
    ∧ (((runSimulation cfgSinglePacket randZero).timeline.headD []).map
        (fun cell => cell.state)).take 18
      = [.IDLE, .SENSING, .TX_PREAMBLE, .TX_FC, .TX_DATA, .TX_DATA, .TX_DATA,
         .TX_DATA, .TX_DATA, .TX_DATA, .TX_DATA, .TX_DATA, .TX_DATA, .TX_DATA,
         .WAIT_RIFS, .RX_ACK, .RX_ACK, .IDLE] := by
  decide

/-- C4 amended.  The packet born at `t = 0` is processed `Idle → Sensing`
during tick 0 and `Sensing → TxPreamble` during tick 1, so the frame
occupies ticks 2..16 (P, FC, 10×Data, RIFS, AckP, AckFc) and the success
completes at tick 16: `success1st = 1` and `totalLatency = 16`.  In
general, for any single-node `Interval` run (NAV is never raised) with
drawn counter `c = pe + uniform draw` and one arrival, the first-packet
success latency is `c + (3 + dataSlots + 2) + 1`: one tick more than the
claim states, for the Idle-to-Sensing step. -/
theorem single_packet_run :
    ((runSimulation cfgSinglePacket randZero).stats.success1st = 1
    ∧ (runSimulation cfgSinglePacket randZero).stats.successCount = 1
    ∧ (runSimulation cfgSinglePacket randZero).stats.totalLatency = 16
    ∧ (((runSimulation cfgSinglePacket randZero).timeline.headD []).map
        (fun cell => cell.state)).take 18
      = [.IDLE, .SENSING, .TX_PREAMBLE, .TX_FC, .TX_DATA, .TX_DATA, .TX_DATA,
         .TX_DATA, .TX_DATA, .TX_DATA, .TX_DATA, .TX_DATA, .TX_DATA, .TX_DATA,
         .WAIT_RIFS, .RX_ACK, .RX_ACK, .IDLE])
    ∧ (∀ (cfg : SimConfig) (rand : Nat → Nat),
        cfg.nodeCount = 1 → cfg.packetGenMode = .INTERVAL → 1 ≤ cfg.dataSlots →
        ∀ c : Nat, generateBackoffValue cfg cfg.minBe (rand 0) = c →
        cfg.simDuration = c + cfg.dataSlots + 7 →
        cfg.simDuration ≤ cfg.packetInterval →
        (runSimulation cfg rand).stats.totalLatency = c + cfg.dataSlots + 6
        ∧ (runSimulation cfg rand).stats.success1st = 1
        ∧ (runSimulation cfg rand).stats.successCount = 1) :=
  And.intro single_packet_run_concrete (by
    intro cfg rand h1 h2 hds c hc hD hI
    have h := snRun cfg rand h1 h2 hds c hc (by omega)
    have hrs : (runSimulation cfg rand).stats = (stateAt cfg rand cfg.simDuration).stats := rfl
    rw [hrs, hD]
    exact ⟨h.1, h.2.2, h.2.1⟩)

/-- The single-packet scenario trimmed to the exact first-transaction
horizon (`simDuration = 0 + 10 + 7`). -/
def cfgSingle17 : SimConfig :=
  { cfgSinglePacket with simDuration := 17 }

set_option maxRecDepth 4000 in
/-- Witness for C4's general clause at a concrete input. -/
theorem single_packet_run_witness :
    (runSimulation cfgSingle17 randZero).stats.totalLatency = 16
    ∧ (runSimulation cfgSingle17 randZero).stats.success1st = 1
    ∧ (runSimulation cfgSingle17 randZero).stats.successCount = 1 :=
  single_packet_run.2 cfgSingle17 randZero rfl rfl (by decide) 0 (by decide)
    (by decide) (by decide)

/-- Scenario "two-node guaranteed collision": `nodeCount=2, Interval,
packetInterval=1000, pe=0, minBe=maxBe=0, maxNb=0, dataSlots=3,
simDuration=40`. -/
def cfgTwoNode : SimConfig :=
  { slotDurationUs := 10, dataSlots := 3, ackSlots := 2, collisionPenalty := 40,
    pe := 0, minBe := 0, maxBe := 0, maxNb := 0, nodeCount := 2,
    packetGenMode := .INTERVAL, packetProb := 0, packetInterval := 1000,
    simDuration := 40 }

set_option maxRecDepth 4000 in
/-- C5.  Both nodes arrive at `t = 0`, draw backoff 0 and transmit in
lockstep; the run ends with `failureCount = 2`, `successCount = 0`,
`collisionCount = 2` (the doomed flag lets each node contribute exactly
one collision event for its one transmission attempt), and each node
has at least one `Drop` log entry. -/
theorem two_node_collision_run :
    (runSimulation cfgTwoNode randZero).stats.failureCount = 2
    ∧ (runSimulation cfgTwoNode randZero).stats.successCount = 0
    ∧ (runSimulation cfgTwoNode randZero).stats.collisionCount = 2
    ∧ ((runSimulation cfgTwoNode randZero).logs.any
        (fun e => e.nodeId == 0 && e.type == LogType.DROP)) = true
    ∧ ((runSimulation cfgTwoNode randZero).logs.any
        (fun e => e.nodeId == 1 && e.type == LogType.DROP)) = true := by
  decide

/-- C2.  The engine consumes randomness only through the explicit draw
stream modelling `Math.random()`; with the same configuration and the
same draw sequence, two runs produce identical timeline, logs and stats
(the whole result is a pure function of `(config, stream)`). -/
theorem runSimulation_deterministic (cfg : SimConfig) (r1 r2 : Nat → Nat)
    (h : ∀ i, r1 i = r2 i) :
    runSimulation cfg r1 = runSimulation cfg r2 := by
  have hr : r1 = r2 := funext h
  rw [hr]

/-- Witness for C2 at a concrete configuration and stream. -/
theorem runSimulation_deterministic_witness :
    runSimulation cfgTwoNode randZero = runSimulation cfgTwoNode randZero :=
  runSimulation_deterministic cfgTwoNode randZero randZero (fun _ => rfl)

/-! ## Entry into TX_PREAMBLE (C7) -/

theorem genPhase_node (cfg : SimConfig) (rand : Nat → Nat) (t : Nat)
    (n : Node) (a : FsmAcc) :
    (genPhase cfg rand t n a).1
      = { n with packetQueue := (genPhase cfg rand t n a).1.packetQueue } := by
  unfold genPhase
  dsimp only
  split <;> rfl

theorem stepIdle_state (cfg : SimConfig) (n : Node) (a : FsmAcc) :
    (stepIdle cfg n a).node.state = .SENSING ∨ (stepIdle cfg n a).node.state = n.state := by
  unfold stepIdle
  split
  · exact Or.inl rfl
  · exact Or.inr rfl

theorem stepBackoff_toP (t : Nat) (busy : Bool) (n : Node) (a : FsmAcc) :
    (stepBackoff t busy n a).node.state = .TX_PREAMBLE → n.backoffCounter ≤ 1 := by
  unfold stepBackoff
  dsimp only
  intro h
  split at h
  · split at h
    · simp at h
    · omega
  · simp at h

theorem stepProgress_state (len : Nat) (nx : NodeType) (n : Node) (a : FsmAcc) :
    (stepProgress len nx n a).node.state = nx
      ∨ (stepProgress len nx n a).node.state = n.state := by
  unfold stepProgress
  dsimp only
  split
  · exact Or.inl rfl
  · exact Or.inr rfl

theorem stepRxAck_toP (cfg : SimConfig) (t : Nat) (n : Node) (a : FsmAcc) :
    (stepRxAck cfg t n a).node.state = .TX_PREAMBLE → n.state = .TX_PREAMBLE := by
  unfold stepRxAck
  dsimp only
  intro h
  repeat' split at h
  all_goals simp_all

theorem stepFailed_state (n : Node) (a : FsmAcc) :
    (stepFailed n a).node.state = .SENSING ∨ (stepFailed n a).node.state = .IDLE := by
  unfold stepFailed
  split
  · exact Or.inl rfl
  · exact Or.inr rfl

/-- Per-node step: the only ways the FSM transition can output
`TX_PREAMBLE` are from `SENSING` (zero draw), from `BACKOFF` or
`BACKOFF_PAUSED` with a counter at most 1, or by already being in
`TX_PREAMBLE` before a stalled progress step. -/
theorem transition_toP (cfg : SimConfig) (rand : Nat → Nat) (t : Nat)
    (busy : Bool) (n : Node) (a : FsmAcc) :
    (transition cfg rand t busy n a).node.state = .TX_PREAMBLE →
      n.state = .SENSING
      ∨ ((n.state = .BACKOFF ∨ n.state = .BACKOFF_PAUSED) ∧ n.backoffCounter ≤ 1)
      ∨ n.state = .TX_PREAMBLE := by
  unfold transition
  cases hs : n.state with
  | IDLE =>
    intro h
    rcases stepIdle_state cfg n a with h2 | h2 <;> rw [h2] at h <;> simp_all
  | SENSING => exact fun _ => Or.inl rfl
  | BACKOFF =>
    intro h
    exact Or.inr (Or.inl ⟨Or.inl rfl, stepBackoff_toP t busy n a h⟩)
  | BACKOFF_PAUSED =>
    intro h
    exact Or.inr (Or.inl ⟨Or.inr rfl, stepBackoff_toP t busy n a h⟩)
  | TX_PREAMBLE => exact fun _ => Or.inr (Or.inr rfl)
  | TX_FC =>
    intro h
    rcases stepProgress_state 1 .TX_DATA n a with h2 | h2 <;> rw [h2] at h <;> simp_all
  | TX_DATA =>
    intro h
    rcases stepProgress_state cfg.dataSlots .WAIT_RIFS n a with h2 | h2 <;>
      rw [h2] at h <;> simp_all
  | WAIT_RIFS =>
    intro h
    rcases stepProgress_state 1 .RX_ACK n a with h2 | h2 <;> rw [h2] at h <;> simp_all
  | RX_ACK =>
    intro h
    have h2 := stepRxAck_toP cfg t n a h
    simp_all
  | FAILED =>
    intro h
    rcases stepFailed_state n a with h2 | h2 <;> rw [h2] at h <;> simp_all
  | COLLISION =>
    intro h
    simp_all

/-- Per-node step including packet generation. -/
theorem fsmNode_toP (cfg : SimConfig) (rand : Nat → Nat) (t : Nat)
    (busy col : Bool) (n : Node) (a : FsmAcc) :
    (fsmNode cfg rand t busy col n a).node.state = .TX_PREAMBLE →
      n.state = .SENSING
      ∨ ((n.state = .BACKOFF ∨ n.state = .BACKOFF_PAUSED) ∧ n.backoffCounter ≤ 1)
      ∨ n.state = .TX_PREAMBLE := by
  unfold fsmNode
  dsimp only
  intro h
  have h2 := transition_toP cfg rand t busy (genPhase cfg rand t n a).1
    (genPhase cfg rand t n a).2 h
  rw [genPhase_node cfg rand t n a] at h2
  simpa using h2

theorem collisionSweep_nodes (t : Nat) (l : List Node) (st : SimStats) (lg : List LogEntry) :
    (collisionSweep t l st lg).1
      = l.map (fun n =>
          if isTxStateB n.state && !n.isCurrentTxDoomed then
            { n with isCurrentTxDoomed := true }
          else n) := by
  induction l generalizing st lg with
  | nil => rfl
  | cons n rest ih =>
    unfold collisionSweep
    dsimp only
    split
    · next h => rw [ih]; simp only [List.map_cons]; rw [if_pos h]
    · next h => rw [ih]; simp only [List.map_cons]; rw [if_neg h]

theorem navPhase_nodes (cfg : SimConfig) (t : Nat) (p f k : Bool) (l : List Node) :
    (navPhase cfg t p f k l).1 = l.map (fun n => (navNode cfg t p f k n).1) := by
  induction l with
  | nil => rfl
  | cons n rest ih =>
    unfold navPhase
    dsimp only
    rw [ih]
    rfl

/-- `navNode` changes only the `vcs` field of the node. -/
theorem navNode_node (cfg : SimConfig) (t : Nat) (p f k : Bool) (n : Node) :
    (navNode cfg t p f k n).1 = { n with vcs := (navNode cfg t p f k n).1.vcs } := by
  unfold navNode
  dsimp only
  split <;> rfl

theorem fsmPhase_get (cfg : SimConfig) (rand : Nat → Nat) (t : Nat) (busy col : Bool)
    (l : List Node) (a : FsmAcc) (i : Nat) (m : Node)
    (h : (fsmPhase cfg rand t busy col l a).1.get? i = some m) :
    ∃ n a2, l.get? i = some n ∧ m = (fsmNode cfg rand t busy col n a2).node := by
  induction l generalizing a i with
  | nil => simp [fsmPhase] at h
  | cons n rest ih =>
    unfold fsmPhase at h
    dsimp only at h
    cases i with
    | zero =>
      simp only [List.get?_cons_zero, Option.some.injEq] at h
      exact ⟨n, a, rfl, h.symm⟩
    | succ i =>
      simp only [List.get?_cons_succ] at h
      obtain ⟨n2, a2, h1, h2⟩ := ih _ i h
      exact ⟨n2, a2, h1, h2⟩

/-- C7 amended.  A node enters `TxPreamble` only from `Sensing` (a zero
draw), or from `Backoff` or `BackoffPaused` with its counter at 1 (a
paused node on a freed channel resumes and transmits within the same
tick, so `BackoffPaused` also steps directly to `TxPreamble`);
`TxPreamble` itself never persists, and no other label ever steps to
`TxPreamble`. -/
theorem txPreamble_entry (cfg : SimConfig) (rand : Nat → Nat) (t i : Nat) (m m2 : Node)
    (h1 : (stateAt cfg rand t).nodes.get? i = some m)
    (h2 : (stateAt cfg rand (t + 1)).nodes.get? i = some m2)
    (hP : m2.state = .TX_PREAMBLE) :
    m.state = .SENSING
    ∨ ((m.state = .BACKOFF ∨ m.state = .BACKOFF_PAUSED) ∧ m.backoffCounter ≤ 1)
    ∨ m.state = .TX_PREAMBLE := by
  have hstep : stateAt cfg rand (t + 1) = simTick cfg rand t (stateAt cfg rand t) := rfl
  rw [hstep] at h2
  unfold simTick at h2
  dsimp only at h2
  obtain ⟨n, a2, hget, hm2⟩ := fsmPhase_get _ _ _ _ _ _ _ _ _ h2
  rw [navPhase_nodes, List.get?_map] at hget
  have hpre :
      ∃ n0, (stateAt cfg rand t).nodes.get? i = some n0
        ∧ n.state = n0.state ∧ n.backoffCounter = n0.backoffCounter := by
    split at hget
    · rw [collisionSweep_nodes, List.get?_map] at hget
      cases hv : (stateAt cfg rand t).nodes.get? i with
      | none => rw [hv] at hget; simp at hget
      | some n0 =>
        rw [hv] at hget
        simp only [Option.map_some', Option.some.injEq] at hget
        refine ⟨n0, rfl, ?_, ?_⟩ <;>
          · rw [← hget, navNode_node]
            split <;> rfl
    · cases hv : (stateAt cfg rand t).nodes.get? i with
      | none => rw [hv] at hget; simp at hget
      | some n0 =>
        rw [hv] at hget
        simp only [Option.map_some', Option.some.injEq] at hget
        refine ⟨n0, rfl, ?_, ?_⟩ <;> rw [← hget, navNode_node]
  obtain ⟨n0, hv, hstate, hcounter⟩ := hpre
  rw [h1] at hv
  cases hv
  rw [hm2] at hP
  have := fsmNode_toP cfg rand t _ _ n a2 hP
  rw [hstate, hcounter] at this
  exact this
/-- Scenario for the C7 counterexample: two nodes, deterministic draws
3 (node 0) and 2 (node 1) via the dyadic stream, `dataSlots = 1`,
`collisionPenalty = 0`.  Node 1 transmits while node 0 is mid-backoff
with counter 1, so node 0 pauses at counter 1 and later enters
`TX_PREAMBLE` directly from `BACKOFF_PAUSED`. -/
def cfgPaused : SimConfig :=
  { slotDurationUs := 10, dataSlots := 1, ackSlots := 2, collisionPenalty := 0,
    pe := 0, minBe := 2, maxBe := 2, maxNb := 5, nodeCount := 2,
    packetGenMode := .INTERVAL, packetProb := 0, packetInterval := 1000,
    simDuration := 12 }

/-- Draw stream for `cfgPaused`: `3/4` then `1/2` (numerators at
denominator `2 ^ 53`), giving backoff draws 3 and 2 at `be = 2`. -/
def randPaused : Nat → Nat := fun i => if i == 0 then 3 * 2 ^ 51 else 2 ^ 52

set_option maxRecDepth 4000 in
/-- C7 counterexample.  In the `cfgPaused` run node 0 is in
`BACKOFF_PAUSED` at the start of tick 10 and in `TX_PREAMBLE` at the
start of tick 11: a label other than `Sensing` and `Backoff` steps
directly to `TxPreamble`. -/
theorem txPreamble_entry_claim_false :
    ((stateAt cfgPaused randPaused 10).nodes.map Node.state
      = [.BACKOFF_PAUSED, .IDLE])
    ∧ ((stateAt cfgPaused randPaused 11).nodes.map Node.state
      = [.TX_PREAMBLE, .IDLE])
    ∧ NodeType.BACKOFF_PAUSED ≠ NodeType.SENSING
    ∧ NodeType.BACKOFF_PAUSED ≠ NodeType.BACKOFF := by
  decide

/-- The single-packet node as it stands at the start of tick 1. -/
def witSensingNode : Node :=
  { id := 0, state := .SENSING, packetQueue := [0], vcs := 0, nb := 0,
    be := 0, backoffCounter := 0, txProgress := 0, isCurrentTxDoomed := false }

/-- The single-packet node as it stands at the start of tick 2. -/
def witPreambleNode : Node :=
  { id := 0, state := .TX_PREAMBLE, packetQueue := [0], vcs := 0, nb := 0,
    be := 0, backoffCounter := 0, txProgress := 0, isCurrentTxDoomed := false }

set_option maxRecDepth 4000 in
/-- Witness for C7 at a concrete step: in the single-packet run the
node is `SENSING` at tick 1 and `TX_PREAMBLE` at tick 2. -/
theorem txPreamble_entry_witness :
    witSensingNode.state = NodeType.SENSING
    ∨ ((witSensingNode.state = NodeType.BACKOFF
        ∨ witSensingNode.state = NodeType.BACKOFF_PAUSED)
      ∧ witSensingNode.backoffCounter ≤ 1)
    ∨ witSensingNode.state = NodeType.TX_PREAMBLE :=
  txPreamble_entry cfgSinglePacket randZero 1 0 witSensingNode witPreambleNode
    (by decide) (by decide) (by decide)

/-! ## NAV update characterization (C8) -/

/-- The NAV value the spec prescribes for a non-transmitter: raise to
`max(nav, collisionPenalty)` on a preamble, overwrite with
`dataSlots + 3` on a decodable frame control (no collision), then
decrement when positive. -/
def navSpecVcs (pre fc col : Bool) (cp ds v : Nat) : Nat :=
  let v1 := if pre = true then max v cp else v
  let v2 := if fc = true ∧ col = false then ds + 3 else v1
  if v2 > 0 then v2 - 1 else v2

theorem navPhase_logs (cfg : SimConfig) (t : Nat) (p f k : Bool) (l : List Node) :
    (navPhase cfg t p f k l).2
      = (l.map (fun n => (navNode cfg t p f k n).2)).flatten := by
  induction l with
  | nil => rfl
  | cons n rest ih =>
    unfold navPhase
    dsimp only
    rw [ih]
    simp

theorem navNode_tx (cfg : SimConfig) (t : Nat) (pre fc col : Bool) (n : Node)
    (h : isTxStateB n.state = true) :
    navNode cfg t pre fc col n = (n, []) := by
  unfold navNode
  rw [if_pos h]

theorem navNode_vcs (cfg : SimConfig) (t : Nat) (pre fc col : Bool) (n : Node)
    (h : isTxStateB n.state = false) :
    (navNode cfg t pre fc col n).1
      = { n with vcs := navSpecVcs pre fc col cfg.collisionPenalty cfg.dataSlots n.vcs } := by
  unfold navNode navSpecVcs
  rw [if_neg (by simp [h])]
  dsimp only
  cases pre <;> cases fc <;> cases col <;> simp

theorem navNode_logs (cfg : SimConfig) (t : Nat) (pre fc col : Bool) (n : Node)
    (h : isTxStateB n.state = false) :
    (navNode cfg t pre fc col n).2.length
        = ((if pre = true ∧ n.vcs = 0 then 1 else 0)
          + (if fc = true ∧ col = false then 1 else 0))
    ∧ ∀ e ∈ (navNode cfg t pre fc col n).2,
        e.type = .VCS ∧ e.nodeId = n.id ∧ e.tick = t := by
  unfold navNode
  rw [if_neg (by simp [h])]
  dsimp only
  constructor
  · cases pre <;> cases fc <;> cases col <;> by_cases hv : n.vcs = 0 <;> simp [hv]
  · intro e he
    rw [List.mem_append] at he
    rcases he with he | he <;>
      · revert he
        split <;> intro he <;> simp at he <;> simp [he]

/-- C8.  On every tick, a node that is not a transmitter has its NAV
rewritten to exactly the spec value `navSpecVcs` (preamble max, FC
overwrite to `dataSlots + 3` when no collision, then decrement), with a
`Vcs` log exactly when the preamble is heard on pre-tick NAV 0 plus one
on every decoded FC; no other field of the node changes.  A transmitter
is left untouched by the NAV phase and emits no `Vcs` log. -/
theorem nav_update_spec (cfg : SimConfig) (t : Nat) (pre fc col : Bool)
    (nodes : List Node) (i : Nat) (n : Node)
    (h : nodes.get? i = some n) :
    ∃ m, (navPhase cfg t pre fc col nodes).1.get? i = some m
      ∧ (isTxStateB n.state = true →
          m = n ∧ (navNode cfg t pre fc col n).2 = [])
      ∧ (isTxStateB n.state = false →
          m = { n with vcs := navSpecVcs pre fc col cfg.collisionPenalty cfg.dataSlots n.vcs }
          ∧ (navNode cfg t pre fc col n).2.length
              = ((if pre = true ∧ n.vcs = 0 then 1 else 0)
                + (if fc = true ∧ col = false then 1 else 0))
          ∧ ∀ e ∈ (navNode cfg t pre fc col n).2,
              e.type = .VCS ∧ e.nodeId = n.id ∧ e.tick = t)
      ∧ (navPhase cfg t pre fc col nodes).2
          = (nodes.map (fun k => (navNode cfg t pre fc col k).2)).flatten := by
  refine ⟨(navNode cfg t pre fc col n).1, ?_, ?_, ?_, navPhase_logs cfg t pre fc col nodes⟩
  · rw [navPhase_nodes, List.get?_map, h]
    rfl
  · intro htx
    rw [navNode_tx cfg t pre fc col n htx]
    exact ⟨rfl, rfl⟩
  · intro htx
    exact ⟨navNode_vcs cfg t pre fc col n htx, navNode_logs cfg t pre fc col n htx⟩

set_option maxRecDepth 4000 in
/-- Witness for C8 at a concrete input: the node of the single-packet
run at tick 1 under an active preamble. -/
theorem nav_update_spec_witness :
    ∃ m, (navPhase cfgSinglePacket 1 true false false [witSensingNode]).1.get? 0 = some m
      ∧ (isTxStateB witSensingNode.state = true →
          m = witSensingNode
          ∧ (navNode cfgSinglePacket 1 true false false witSensingNode).2 = [])
      ∧ (isTxStateB witSensingNode.state = false →
          m = { witSensingNode with
                  vcs := navSpecVcs true false false cfgSinglePacket.collisionPenalty
                    cfgSinglePacket.dataSlots witSensingNode.vcs }
          ∧ (navNode cfgSinglePacket 1 true false false witSensingNode).2.length
              = ((if (true : Bool) = true ∧ witSensingNode.vcs = 0 then 1 else 0)
                + (if (false : Bool) = true ∧ (false : Bool) = false then 1 else 0))
          ∧ ∀ e ∈ (navNode cfgSinglePacket 1 true false false witSensingNode).2,
              e.type = .VCS ∧ e.nodeId = witSensingNode.id ∧ e.tick = 1)
      ∧ (navPhase cfgSinglePacket 1 true false false [witSensingNode]).2
          = ([witSensingNode].map
              (fun k => (navNode cfgSinglePacket 1 true false false k).2)).flatten :=
  nav_update_spec cfgSinglePacket 1 true false false [witSensingNode] 0 witSensingNode
    (by decide)

/-! ## Queue invariant (C9) -/

/-- Induction invariant for C9: away from `IDLE` and `FAILED` the queue
is non-empty, and the visualization-only `COLLISION` label is never a
real node state. -/
def nodeQueueInv (n : Node) : Prop :=
  (n.state ≠ .IDLE ∧ n.state ≠ .FAILED → n.packetQueue ≠ []) ∧ n.state ≠ .COLLISION

theorem genPhase_queue (cfg : SimConfig) (rand : Nat → Nat) (t : Nat)
    (n : Node) (a : FsmAcc) :
    (genPhase cfg rand t n a).1.packetQueue = n.packetQueue
      ∨ (genPhase cfg rand t n a).1.packetQueue = n.packetQueue ++ [t] := by
  unfold genPhase
  dsimp only
  split
  · exact Or.inr rfl
  · exact Or.inl rfl

theorem genPhase_queueInv (cfg : SimConfig) (rand : Nat → Nat) (t : Nat)
    (n : Node) (a : FsmAcc) (h : nodeQueueInv n) :
    nodeQueueInv (genPhase cfg rand t n a).1 := by
  obtain ⟨hq, hc⟩ := h
  constructor
  · rw [genPhase_node]
    intro hs
    rcases genPhase_queue cfg rand t n a with he | he <;> rw [he]
    · exact hq hs
    · simp
  · rw [genPhase_node]
    exact hc

theorem transition_queueInv (cfg : SimConfig) (rand : Nat → Nat) (t : Nat)
    (busy : Bool) (n : Node) (a : FsmAcc) (h : nodeQueueInv n) :
    nodeQueueInv (transition cfg rand t busy n a).node := by
  obtain ⟨hq, hc⟩ := h
  unfold transition stepIdle stepSensing stepBackoff stepProgress stepRxAck stepFailed
    Node.resetProtocolState
  cases hs : n.state
  all_goals dsimp only
  all_goals repeat' split
  all_goals simp_all [nodeQueueInv]
  all_goals refine List.length_pos.mp ?_
  all_goals try rw [List.length_tail]
  all_goals omega

theorem fsmNode_queueInv (cfg : SimConfig) (rand : Nat → Nat) (t : Nat)
    (busy col : Bool) (n : Node) (a : FsmAcc) (h : nodeQueueInv n) :
    nodeQueueInv (fsmNode cfg rand t busy col n a).node := by
  unfold fsmNode
  dsimp only
  exact transition_queueInv cfg rand t busy _ _
    (genPhase_queueInv cfg rand t n a h)

theorem fsmPhase_mem (cfg : SimConfig) (rand : Nat → Nat) (t : Nat) (busy col : Bool)
    (l : List Node) (a : FsmAcc) (m : Node)
    (hm : m ∈ (fsmPhase cfg rand t busy col l a).1) :
    ∃ n a2, n ∈ l ∧ m = (fsmNode cfg rand t busy col n a2).node := by
  induction l generalizing a with
  | nil => simp [fsmPhase] at hm
  | cons n rest ih =>
    unfold fsmPhase at hm
    dsimp only at hm
    rcases List.mem_cons.mp hm with he | he
    · exact ⟨n, a, List.mem_cons_self n rest, he⟩
    · obtain ⟨n2, a2, h1, h2⟩ := ih _ he
      exact ⟨n2, a2, List.mem_cons_of_mem n h1, h2⟩

/-- Nodes entering the FSM phase of a tick have the same `state`,
`packetQueue` and `backoffCounter` as some node of the pre-tick state. -/
theorem simTick_prefsm_mem (cfg : SimConfig) (rand : Nat → Nat) (t : Nat)
    (s : SimState) (col : Bool) (st : SimStats) (lg : List LogEntry)
    (p f k : Bool) (n : Node)
    (hn : n ∈ (navPhase cfg t p f k
        ((if col = true then collisionSweep t s.nodes st lg else (s.nodes, st, lg)).1)).1) :
    ∃ n0 ∈ s.nodes, n.state = n0.state ∧ n.packetQueue = n0.packetQueue
      ∧ n.backoffCounter = n0.backoffCounter := by
  rw [navPhase_nodes] at hn
  obtain ⟨n1, hn1, he⟩ := List.mem_map.mp hn
  have hstate : n.state = n1.state ∧ n.packetQueue = n1.packetQueue
      ∧ n.backoffCounter = n1.backoffCounter := by
    rw [← he, navNode_node]
    exact ⟨rfl, rfl, rfl⟩
  revert hn1
  split
  · rw [collisionSweep_nodes]
    intro hn1
    obtain ⟨n0, hn0, he0⟩ := List.mem_map.mp hn1
    refine ⟨n0, hn0, ?_⟩
    rw [← he0] at hstate
    revert hstate
    split <;> exact fun hh => hh
  · intro hn1
    exact ⟨n1, hn1, hstate⟩

/-- C9.  At every tick boundary of every run, a node whose label is
neither `Idle` nor `Failed` has a non-empty packet queue; in particular
a node in `RxAck` has a packet to dequeue, so the guarded
undefined-birth-tick branch of the success path is unreachable and
`totalLatency` is incremented on every success. -/
theorem queue_nonempty_invariant (cfg : SimConfig) (rand : Nat → Nat) (t : Nat)
    (m : Node) (hm : m ∈ (stateAt cfg rand t).nodes) :
    (m.state ≠ .IDLE ∧ m.state ≠ .FAILED → m.packetQueue ≠ [])
    ∧ (m.state = .RX_ACK → m.packetQueue ≠ []) := by
  have main : ∀ (u : Nat), ∀ m2 ∈ (stateAt cfg rand u).nodes, nodeQueueInv m2 := by
    intro u
    induction u with
    | zero =>
      intro m2 hm2
      simp only [stateAt, initState, List.mem_map] at hm2
      obtain ⟨i, _, he⟩ := hm2
      rw [← he]
      exact ⟨by simp [Node.init], by simp [Node.init]⟩
    | succ u ih =>
      intro m2 hm2
      have hstep : stateAt cfg rand (u + 1) = simTick cfg rand u (stateAt cfg rand u) := rfl
      rw [hstep] at hm2
      unfold simTick at hm2
      dsimp only at hm2
      obtain ⟨n, a2, hn, he⟩ := fsmPhase_mem _ _ _ _ _ _ _ _ hm2
      obtain ⟨n0, hn0, e1, e2, _⟩ := simTick_prefsm_mem cfg rand u (stateAt cfg rand u)
        _ _ _ _ _ _ n hn
      have h0 := ih n0 hn0
      have hninv : nodeQueueInv n := by
        unfold nodeQueueInv
        rw [e1, e2]
        exact h0
      rw [he]
      exact fsmNode_queueInv cfg rand u _ _ n a2 hninv
  have h := main t m hm
  obtain ⟨hq, hc⟩ := h
  exact ⟨hq, fun hr => hq (by rw [hr]; exact ⟨by simp, by simp⟩)⟩

set_option maxRecDepth 4000 in
/-- Witness for C9: the single-packet node at tick 2 is in
`TxPreamble`, hence its queue is non-empty. -/
theorem queue_nonempty_invariant_witness :
    witPreambleNode.packetQueue ≠ [] :=
  (queue_nonempty_invariant cfgSinglePacket randZero 2 witPreambleNode
    (by decide)).1 ⟨by decide, by decide⟩

/-! ## Backoff-counter invariant (C10) -/

/-- Node part of the C10 invariant: in `BACKOFF`/`BACKOFF_PAUSED` the
counter is at least 1 (a zero draw bypasses `BACKOFF` entirely). -/
def nodeBoInv (n : Node) : Prop :=
  (n.state = .BACKOFF ∨ n.state = .BACKOFF_PAUSED) → 1 ≤ n.backoffCounter

/-- Cell part of the C10 invariant: a `BACKOFF`/`BACKOFF_PAUSED` cell
carries `info = some k` with `k ≥ 1`. -/
def cellOk (c : TimelineCell) : Prop :=
  (c.state = .BACKOFF ∨ c.state = .BACKOFF_PAUSED) → ∃ k, c.info = some k ∧ 1 ≤ k

theorem transition_boInv (cfg : SimConfig) (rand : Nat → Nat) (t : Nat)
    (busy : Bool) (n : Node) (a : FsmAcc) (h : nodeBoInv n) :
    nodeBoInv (transition cfg rand t busy n a).node := by
  unfold nodeBoInv at h
  unfold transition stepIdle stepSensing stepBackoff stepProgress stepRxAck stepFailed
    Node.resetProtocolState
  cases hs : n.state
  all_goals dsimp only
  all_goals repeat' split
  all_goals simp_all [nodeBoInv]
  all_goals omega

theorem fsmNode_boInv (cfg : SimConfig) (rand : Nat → Nat) (t : Nat)
    (busy col : Bool) (n : Node) (a : FsmAcc) (h : nodeBoInv n) :
    nodeBoInv (fsmNode cfg rand t busy col n a).node := by
  unfold fsmNode
  dsimp only
  refine transition_boInv cfg rand t busy _ _ ?_
  rw [genPhase_node]
  exact h

theorem fsmNode_cellOk (cfg : SimConfig) (rand : Nat → Nat) (t : Nat)
    (busy col : Bool) (n : Node) (a : FsmAcc) (h : nodeBoInv n) :
    cellOk (fsmNode cfg rand t busy col n a).cell := by
  unfold nodeBoInv at h
  unfold fsmNode
  dsimp only
  rw [genPhase_node cfg rand t n a]
  unfold transition stepIdle stepSensing stepBackoff stepProgress stepRxAck stepFailed
    Node.resetProtocolState
  cases hs : n.state
  all_goals dsimp only
  all_goals repeat' split
  all_goals simp_all [cellOk, isTxStateB]

theorem stateAt_boInv (cfg : SimConfig) (rand : Nat → Nat) (t : Nat)
    (m : Node) (hm : m ∈ (stateAt cfg rand t).nodes) : nodeBoInv m := by
  induction t generalizing m with
  | zero =>
    simp only [stateAt, initState, List.mem_map] at hm
    obtain ⟨i, _, he⟩ := hm
    rw [← he]
    simp [Node.init, nodeBoInv]
  | succ u ih =>
    have hstep : stateAt cfg rand (u + 1) = simTick cfg rand u (stateAt cfg rand u) := rfl
    rw [hstep] at hm
    unfold simTick at hm
    dsimp only at hm
    obtain ⟨n, a2, hn, he⟩ := fsmPhase_mem _ _ _ _ _ _ _ _ hm
    obtain ⟨n0, hn0, e1, _, e3⟩ := simTick_prefsm_mem cfg rand u (stateAt cfg rand u)
      _ _ _ _ _ _ n hn
    have h0 := ih n0 hn0
    have hninv : nodeBoInv n := by
      unfold nodeBoInv
      rw [e1, e3]
      exact h0
    rw [he]
    exact fsmNode_boInv cfg rand u _ _ n a2 hninv

theorem fsmPhase_cells_mem (cfg : SimConfig) (rand : Nat → Nat) (t : Nat) (busy col : Bool)
    (l : List Node) (a : FsmAcc) (c : TimelineCell)
    (hc : c ∈ (fsmPhase cfg rand t busy col l a).2.2) :
    ∃ n a2, n ∈ l ∧ c = (fsmNode cfg rand t busy col n a2).cell := by
  induction l generalizing a with
  | nil => simp [fsmPhase] at hc
  | cons n rest ih =>
    unfold fsmPhase at hc
    dsimp only at hc
    rcases List.mem_cons.mp hc with he | he
    · exact ⟨n, a, List.mem_cons_self n rest, he⟩
    · obtain ⟨n2, a2, h1, h2⟩ := ih _ he
      exact ⟨n2, a2, List.mem_cons_of_mem n h1, h2⟩

theorem mem_zipWith {α β γ : Type} (f : α → β → γ) :
    ∀ (l1 : List α) (l2 : List β) (x : γ), x ∈ List.zipWith f l1 l2 →
      ∃ a b, a ∈ l1 ∧ b ∈ l2 ∧ x = f a b := by
  intro l1
  induction l1 with
  | nil => intro l2 x hx; simp at hx
  | cons a rest ih =>
    intro l2 x hx
    cases l2 with
    | nil => simp at hx
    | cons b rest2 =>
      rcases List.mem_cons.mp hx with he | he
      · exact ⟨a, b, List.mem_cons_self a rest, List.mem_cons_self b rest2, he⟩
      · obtain ⟨a2, b2, h1, h2, h3⟩ := ih rest2 x he
        exact ⟨a2, b2, List.mem_cons_of_mem a h1, List.mem_cons_of_mem b h2, h3⟩

/-- C10.  At every tick boundary of every run a node in
`Backoff`/`BackoffPaused` has `backoffCounter ≥ 1`, and every timeline
cell labelled `Backoff`/`BackoffPaused` carries `info = some k` with
`k ≥ 1`. -/
theorem backoff_counter_invariant (cfg : SimConfig) (rand : Nat → Nat) (t : Nat) :
    (∀ m ∈ (stateAt cfg rand t).nodes,
      (m.state = .BACKOFF ∨ m.state = .BACKOFF_PAUSED) → 1 ≤ m.backoffCounter)
    ∧ (∀ row ∈ (stateAt cfg rand t).timeline, ∀ c ∈ row,
        (c.state = .BACKOFF ∨ c.state = .BACKOFF_PAUSED) →
          ∃ k, c.info = some k ∧ 1 ≤ k) := by
  constructor
  · intro m hm
    exact stateAt_boInv cfg rand t m hm
  · induction t with
    | zero =>
      intro row hrow c hc hbp
      simp only [stateAt, initState, List.mem_map] at hrow
      obtain ⟨_, _, he⟩ := hrow
      rw [← he] at hc
      simp at hc
    | succ u ih =>
      intro row hrow c hc hbp
      have hstep : stateAt cfg rand (u + 1) = simTick cfg rand u (stateAt cfg rand u) := rfl
      rw [hstep] at hrow
      unfold simTick at hrow
      dsimp only at hrow
      obtain ⟨row0, cell, hrow0, hcell, he⟩ := mem_zipWith _ _ _ _ hrow
      rw [he] at hc
      rcases List.mem_append.mp hc with hcin | hcin
      · exact ih row0 hrow0 c hcin hbp
      · simp only [List.mem_singleton] at hcin
        obtain ⟨n, a2, hn, hcelleq⟩ := fsmPhase_cells_mem _ _ _ _ _ _ _ _ hcell
        obtain ⟨n0, hn0, e1, _, e3⟩ := simTick_prefsm_mem cfg rand u (stateAt cfg rand u)
          _ _ _ _ _ _ n hn
        have h0 := stateAt_boInv cfg rand u n0 hn0
        have hninv : nodeBoInv n := by
          unfold nodeBoInv
          rw [e1, e3]
          exact h0
        have hco : cellOk cell := by
          rw [hcelleq]
          exact fsmNode_cellOk cfg rand u _ _ n a2 hninv
        rw [hcin] at hbp ⊢
        exact hco hbp

/-- The trivial-idle run timeline row (states and backoff info). -/
def witRow : List TimelineCell :=
  [{ state := .IDLE, info := none, isCollision := false },
   { state := .SENSING, info := none, isCollision := false },
   { state := .BACKOFF, info := some 2, isCollision := false },
   { state := .BACKOFF, info := some 1, isCollision := false },
   { state := .TX_PREAMBLE, info := none, isCollision := false },
   { state := .TX_FC, info := none, isCollision := false },
   { state := .TX_DATA, info := none, isCollision := false },
   { state := .TX_DATA, info := none, isCollision := false },
   { state := .TX_DATA, info := none, isCollision := false },
   { state := .TX_DATA, info := none, isCollision := false }]

set_option maxRecDepth 4000 in
/-- Witness for C10 at a concrete run: the `Backoff` cell of the
trivial-idle run at tick 2 carries `info = some 2 ≥ 1`. -/
theorem backoff_counter_invariant_witness :
    ∃ k, ({ state := .BACKOFF, info := some 2, isCollision := false } : TimelineCell).info
        = some k ∧ 1 ≤ k :=
  (backoff_counter_invariant cfgTrivialIdle randZero 10).2 witRow (by decide)
    { state := .BACKOFF, info := some 2, isCollision := false }
    (by decide) (by decide)

end Csma
